import Mathlib

/-
Verification development for the pyBinSim real-time binaural synthesis engine.

Shallow embedding of the four source modules:
  * pybinsim/inline_pose_parser.py  (InlinePoseParser)
  * pybinsim/application.py         (parse_boolean, BinSimConfig, BinSim.run_server)
  * pybinsim/filterstorage.py       (Filter, FilterType, FilterStorage)
  * pybinsim/convolver.py           (ConvolverFFTW)

Modelling conventions:
  * Python lists / numpy 1-D arrays become Lean lists; 2-D arrays become
    lists of row lists.  Machine floats / complex64 are idealised as
    elements of a commutative ring (instantiated with ZInt or QRat in concrete
    witnesses, and with the reals for the crossfade-window facts).
  * The FFTW forward and inverse plans are external library calls; they are
    embedded as explicit function parameters (rfft, irfft) of the operations
    that invoke them, exactly where the source calls the plan objects.
  * Python exceptions are modelled with Except String; functions that cannot
    raise on any path return plain values.
  * Python indexing on lists (which supports negative indices and raises
    IndexError when out of range) is modelled by pyGet / pySet below.
-/

set_option autoImplicit false

namespace PyBinSim

/-- Python list read `l[i]`: non-negative indices are plain positional access,
negative indices count from the end, anything else raises IndexError (none). -/
def pyGet {γ : Type} (l : List γ) (i : ℤ) : Option γ :=
  if 0 ≤ i then l.get? i.toNat
  else if (l.length : ℤ) + i < 0 then none
  else l.get? ((l.length : ℤ) + i).toNat

/-- Python list write `l[i] = v` for an index already known to be in range
(the callers below always read the same index first).  Total variant. -/
def pySet {γ : Type} (l : List γ) (i : ℤ) (v : γ) : List γ :=
  if 0 ≤ i then l.set i.toNat v
  else l.set ((l.length : ℤ) + i).toNat v

/-- Python slice `l[a:b]`. -/
def pySlice {γ : Type} (a b : ℕ) (l : List γ) : List γ :=
  (l.take b).drop a

/- ------------------------------------------------------------------
   pybinsim/inline_pose_parser.py
   ------------------------------------------------------------------ -/

/-- State of `InlinePoseParser`: one dirty flag and one stored nine-field
value tuple per channel. -/
structure InlinePoseParser where
  filtersUpdated : List Bool
  valueList : List (List ℤ)
deriving DecidableEq

/-- `self.defaultValue = (0, 0, 0, 0, 0, 0, 0, 0, 0)`. -/
def InlinePoseParser.defaultValue : List ℤ := List.replicate 9 0

/-- `InlinePoseParser.__init__(maxChannels)`: every dirty flag starts `True`,
every stored value starts as the all-zero nine-tuple. -/
def InlinePoseParser.init (maxChannels : ℕ) : InlinePoseParser :=
  { filtersUpdated := List.replicate maxChannels true,
    valueList := List.replicate maxChannels InlinePoseParser.defaultValue }

/-- `InlinePoseParser.parse_pose_input(channel, azimuth, elevation)`.
Reads `valueList[channel]` (raising IndexError when the channel is out of
range), compares `(azimuth, elevation)` with the first two stored fields and,
when they differ, marks the channel dirty and stores the new pair padded with
the tail of `defaultValue`. -/
def InlinePoseParser.parse_pose_input (s : InlinePoseParser)
    (channel azimuth elevation : ℤ) : Except String InlinePoseParser :=
  let poseData : List ℤ := [azimuth, elevation]
  match pyGet s.valueList channel with
  | none => .error "IndexError: list index out of range"
  | some stored =>
    if poseData ≠ stored.take 2 then
      .ok { filtersUpdated := pySet s.filtersUpdated channel true,
            valueList :=
              pySet s.valueList channel
                (poseData ++ InlinePoseParser.defaultValue.drop 2) }
    else
      .ok s

/-- `InlinePoseParser.is_filter_update_necessary(channel)`. -/
def InlinePoseParser.is_filter_update_necessary (s : InlinePoseParser)
    (channel : ℤ) : Except String Bool :=
  match pyGet s.filtersUpdated channel with
  | none => .error "IndexError: list index out of range"
  | some b => .ok b

/-- `InlinePoseParser.get_current_values(channel)`: clears the dirty flag and
returns the stored value tuple. -/
def InlinePoseParser.get_current_values (s : InlinePoseParser)
    (channel : ℤ) : Except String (List ℤ × InlinePoseParser) :=
  match pyGet s.valueList channel with
  | none => .error "IndexError: list index out of range"
  | some v =>
    .ok (v, { s with filtersUpdated := pySet s.filtersUpdated channel false })

/- ------------------------------------------------------------------
   pybinsim/application.py : parse_boolean and BinSimConfig
   ------------------------------------------------------------------ -/

/-- Argument of `parse_boolean`: the source first tests `type(v) == bool`,
then compares against the literal strings. -/
inductive PyBoolArg
  | ofBool (b : Bool)
  | ofStr (s : String)
deriving DecidableEq

/-- `parse_boolean(any_value)` from application.py. -/
def parse_boolean : PyBoolArg → Option Bool
  | .ofBool b => some b
  | .ofStr s =>
    if s = "True" then some true
    else if s = "False" then some false
    else none

/-- A value stored in `BinSimConfig.configurationDict`; `pnone` is Python
`None` (which `parse_boolean` can produce). -/
inductive PyConfigVal
  | pstr (s : String)
  | pint (n : ℤ)
  | pfloat (q : ℚ)
  | pbool (b : Bool)
  | pnone
deriving DecidableEq

/-- The default configuration dictionary from `BinSimConfig.__init__`. -/
def defaultConfigurationDict : List (String × PyConfigVal) :=
  [("soundfile", .pstr ""),
   ("blockSize", .pint 256),
   ("filterSize", .pint 16384),
   ("filterList", .pstr "brirs/filter_list_kemar5.txt"),
   ("enableCrossfading", .pbool false),
   ("useHeadphoneFilter", .pbool false),
   ("loudnessFactor", .pfloat 1),
   ("maxChannels", .pint 8),
   ("samplingRate", .pint 44100),
   ("loopSound", .pbool true)]

/-- Lookup in the configuration dictionary (keys are unique). -/
def lookupKey (d : List (String × PyConfigVal)) (k : String) :
    Option PyConfigVal :=
  (d.find? (fun e => e.1 = k)).map (fun e => e.2)

/-- Overwrite the value stored under an existing key. -/
def setKey (d : List (String × PyConfigVal)) (k : String) (v : PyConfigVal) :
    List (String × PyConfigVal) :=
  d.map (fun e => if e.1 = k then (k, v) else e)

/-- One iteration of the loop in `BinSimConfig.read_from_file` for an already
split line `key value`.  The conversions `int(value)` and `float(value)`
are Python library calls, embedded as the parameters pyInt and pyFloat
(returning none where Python would raise ValueError).  The result carries the
updated dictionary and the list of emitted warnings. -/
def BinSimConfig.read_config_line (pyInt : String → Option ℤ)
    (pyFloat : String → Option ℚ) (d : List (String × PyConfigVal))
    (key value : String) :
    Except String (List (String × PyConfigVal) × List String) :=
  match lookupKey d key with
  | none => .ok (d, ["Entry " ++ key ++ " is unknown"])
  | some current =>
    match current with
    | .pbool _ =>
      match parse_boolean (.ofStr value) with
      | none =>
        .ok (setKey d key .pnone,
             ["Cannot convert " ++ value ++ " to bool. (key: " ++ key])
      | some b => .ok (setKey d key (.pbool b), [])
    | .pstr _ => .ok (setKey d key (.pstr value), [])
    | .pint _ =>
      match pyInt value with
      | none => .error "ValueError: invalid literal for int"
      | some n => .ok (setKey d key (.pint n), [])
    | .pfloat _ =>
      match pyFloat value with
      | none => .error "ValueError: could not convert string to float"
      | some q => .ok (setKey d key (.pfloat q), [])
    | .pnone => .error "TypeError: NoneType object is not callable"

/-- `BinSimConfig.get(setting)`. -/
def BinSimConfig.get (d : List (String × PyConfigVal)) (setting : String) :
    Option PyConfigVal :=
  lookupKey d setting

/- ------------------------------------------------------------------
   pybinsim/filterstorage.py : Filter and FilterType
   ------------------------------------------------------------------ -/

/-- `Filter` from filterstorage.py.  Time-domain blocks have entries in a
ring TD, frequency-domain blocks entries in a ring FD; each Option field is
none exactly when the source stores Python None there. -/
structure Filter (TD FD : Type) where
  ir_blocks : ℕ
  block_size : ℕ
  IR_left_blocked : Option (List (List TD))
  IR_right_blocked : Option (List (List TD))
  fd_available : Bool
  TF_left_blocked : Option (List (List FD))
  TF_right_blocked : Option (List (List FD))

/-- `np.reshape(xs, (rows, cols))` for a flat list, as used by
`Filter.__init__` (total model; numpy raises when the sizes disagree, the
loader always passes matching sizes). -/
def npReshape {γ : Type} (rows cols : ℕ) (xs : List γ) : List (List γ) :=
  (List.range rows).map (fun i => (xs.drop (i * cols)).take cols)

/-- `Filter.__init__(inputfilter, irBlocks, block_size)`: splits the [S, 2]
sample array into per-ear blocked time-domain arrays; no frequency-domain
data yet. -/
def Filter.make {TD FD : Type} (inputfilter : List (TD × TD))
    (irBlocks block_size : ℕ) : Filter TD FD :=
  { ir_blocks := irBlocks,
    block_size := block_size,
    IR_left_blocked :=
      some (npReshape irBlocks block_size (inputfilter.map Prod.fst)),
    IR_right_blocked :=
      some (npReshape irBlocks block_size (inputfilter.map Prod.snd)),
    fd_available := false,
    TF_left_blocked := none,
    TF_right_blocked := none }

/-- `Filter.storeInFDomain(fftw_plan)`: the plan maps each time-domain row of
length N to an N+1 bin spectrum row; afterwards the time-domain arrays are
released and fd_available is set. -/
def Filter.storeInFDomain {TD FD : Type} (fftw_plan : List TD → List FD)
    (f : Filter TD FD) : Filter TD FD :=
  { f with
    TF_left_blocked := some ((f.IR_left_blocked.getD []).map fftw_plan),
    TF_right_blocked := some ((f.IR_right_blocked.getD []).map fftw_plan),
    fd_available := true,
    IR_left_blocked := none,
    IR_right_blocked := none }

/-- `Filter.getFilterFD()`.  The source raises on no path: when no
frequency-domain data is available it logs a warning and returns freshly
allocated all-zero arrays of shape [ir_blocks, block_size + 1]; otherwise it
returns the stored spectra.  The Except codomain records that a Python method
may raise; this one never does. -/
def Filter.getFilterFD {TD FD : Type} [Zero FD] (f : Filter TD FD) :
    Except String (List (List FD) × List (List FD)) :=
  if f.fd_available = false then
    .ok (List.replicate f.ir_blocks (List.replicate (f.block_size + 1) 0),
         List.replicate f.ir_blocks (List.replicate (f.block_size + 1) 0))
  else
    .ok (f.TF_left_blocked.getD [], f.TF_right_blocked.getD [])

/-- `FilterType` enum from filterstorage.py. -/
inductive FilterType
  | Undefined
  | Filter
  | LateReverbFilter
  | Directivity
deriving DecidableEq

/-- `FilterStorage.load_filter(filter_path, filter_type)` after the WAV has
been decoded: `file_data` is the decoded float32 sample list.  For
Directivity files the source duplicates the (mono) signal into two columns
with np.column_stack; for the other types the decoded data is already the
stereo pair list.  The length checks then compare the length observed at this
point (`filter_size`) against the population target size:
directional (Filter) data is zero-padded when short and truncated when long,
late-reverb data is only truncated, directivity data is truncated or
zero-padded. -/
def FilterStorage.load_filter {α : Type} [Zero α]
    (ir_size lateReverbSize directivitySize : ℕ)
    (filter_type : FilterType) (file_data : List (α × α)) : List (α × α) :=
  let current_filter :=
    if filter_type = FilterType.Directivity then
      file_data.map (fun p => (p.1, p.1))
    else file_data
  let n := current_filter.length
  let current_filter :=
    if filter_type = FilterType.Filter ∧ n < ir_size then
      current_filter ++ List.replicate (ir_size - n) (0, 0)
    else current_filter
  if filter_type = FilterType.Filter then
    if ir_size < n then current_filter.take ir_size else current_filter
  else if filter_type = FilterType.LateReverbFilter then
    if lateReverbSize < n then current_filter.take lateReverbSize
    else current_filter
  else if filter_type = FilterType.Directivity then
    if directivitySize < n then current_filter.take directivitySize
    else if n < directivitySize then
      current_filter ++ List.replicate (directivitySize - n) (0, 0)
    else current_filter
  else current_filter

/- ------------------------------------------------------------------
   Pose (spec-modelled) and the directional lookup of FilterStorage
   ------------------------------------------------------------------ -/

/-- Modelled from the spec: pybinsim/pose.py is not under src/.  A Pose is an
immutable tuple of at least nine integer fields; only the first two (azimuth,
elevation) are used for lookup, and `create_key` is a deterministic
collision-free key derived from all fields (modelled as the field tuple
itself). -/
structure Pose where
  orientation : List ℤ
deriving DecidableEq

/-- Modelled from the spec: `Pose.from_filterValueList`. -/
def Pose.from_filterValueList (l : List ℤ) : Pose := ⟨l⟩

/-- Modelled from the spec: `Pose.create_key`, deterministic and
collision-free across distinct field tuples. -/
def Pose.create_key (p : Pose) : List ℤ := p.orientation

/-- Squared Euclidean distance on 2-D integer coordinates. -/
def sqDist (q p : ℤ × ℤ) : ℤ :=
  (q.1 - p.1) ^ 2 + (q.2 - p.2) ^ 2

/-- Helper for the KD-tree query model: scans the remaining points keeping
the index and squared distance of the best point so far (strict improvement,
so the earliest nearest point wins ties). -/
def nearestAux (q : ℤ × ℤ) : List (ℤ × ℤ) → ℕ → ℕ × ℤ → ℕ × ℤ
  | [], _, best => best
  | p :: rest, i, best =>
    nearestAux q rest (i + 1)
      (if sqDist q p < best.2 then (i, sqDist q p) else best)

/-- Modelled from the spec and the scipy documentation:
`KDTree(pts).query(q)` returns the index of the point of `pts` nearest to `q`
in Euclidean distance (first index on ties). -/
def kdQuery (pts : List (ℤ × ℤ)) (q : ℤ × ℤ) : ℕ :=
  match pts with
  | [] => 0
  | p :: rest => (nearestAux q rest 1 (0, sqDist q p)).1

/-- The directional population of `FilterStorage`: the key → Filter dict
(modelled as the lookup function the successive `dict.update` calls build),
the parallel coordinate list fed to the KD-tree, and the all-zero default
filter.  The filter payload type is generic: storage claims do not depend on
the filter representation. -/
structure FilterStorageModel (φ : Type) where
  filter_dict : List ℤ → Option φ
  filter_arr : List (ℤ × ℤ)
  default_filter : φ

/-- `self.filter_dict.update(\x7bkey: current_filter\x7d)`: later insertions
overwrite earlier ones. -/
def dictInsert {φ : Type} (d : List ℤ → Option φ) (k : List ℤ) (v : φ) :
    List ℤ → Option φ :=
  fun k2 => if k2 = k then some v else d k2

/-- The coordinate a pose contributes to the KD-tree:
`list(map(float, filter_pose.orientation[0:2]))` (spec-modelled as integer
coordinates, since Pose fields are integers). -/
def Pose.coord (p : Pose) : ℤ × ℤ :=
  ((p.orientation.get? 0).getD 0, (p.orientation.get? 1).getD 0)

/-- The `FilterType.Filter` arm of `FilterStorage.load_filters`, iterated
over the parsed entries: each prepared filter is stored in the dict under
`pose.create_key()` and its (azimuth, elevation) pair is appended to
`filter_arr`. -/
def FilterStorage.load_filters {φ : Type} (default_filter : φ)
    (entries : List (Pose × φ)) : FilterStorageModel φ :=
  { filter_dict :=
      entries.foldl (fun d e => dictInsert d e.1.create_key e.2)
        (fun _ => none),
    filter_arr := entries.map (fun e => e.1.coord),
    default_filter := default_filter }

/-- `FilterStorage.get_filter(pose)`: query the KD-tree with the first two
pose fields, rebuild a filter value list from the matched coordinate plus
seven zeros, turn it into a key, and return the dict entry under that key or
the default filter when the dict misses. -/
def FilterStorage.get_filter {φ : Type} (st : FilterStorageModel φ)
    (pose : Pose) : φ :=
  let find_me := pose.coord
  let i := kdQuery st.filter_arr find_me
  let c := (st.filter_arr.get? i).getD (0, 0)
  let fvl : List ℤ := [c.1, c.2] ++ [0, 0, 0, 0, 0, 0, 0]
  let newpose := Pose.from_filterValueList fvl
  let key := newpose.create_key
  match st.filter_dict key with
  | some result_filter => result_filter
  | none => st.default_filter

/- ------------------------------------------------------------------
   pybinsim/convolver.py : ConvolverFFTW
   ------------------------------------------------------------------ -/

/-- Elementwise product of two spectrum rows (np.multiply on one row). -/
def hadamard {FD : Type} [Mul FD] (xs ys : List FD) : List FD :=
  List.zipWith (fun a b => a * b) xs ys

/-- Elementwise product of two [T, N+1] arrays (np.multiply). -/
def rowsHadamard {FD : Type} [Mul FD] (A B : List (List FD)) :
    List (List FD) :=
  List.zipWith hadamard A B

/-- `np.sum(rows, axis=0)` for a [T, width] array: accumulate the rows onto a
zero row of the given width. -/
def sumRows {FD : Type} [Zero FD] [Add FD] (width : ℕ)
    (rows : List (List FD)) : List FD :=
  rows.foldl (fun acc r => List.zipWith (fun a b => a + b) acc r)
    (List.replicate width 0)

/-- `np.sum(np.multiply(TF, FDL), axis=0)`: the partitioned-convolution
accumulation of filter rows against delay-line rows. -/
def convolveSpectra {FD : Type} [Zero FD] [Add FD] [Mul FD] (width : ℕ)
    (TF FDL : List (List FD)) : List FD :=
  sumRows width (rowsHadamard TF FDL)

/-- Entry (i, j) of a list-of-rows array, with 0 outside the bounds. -/
def ent {FD : Type} [Zero FD] (rows : List (List FD)) (i j : ℕ) : FD :=
  (((rows.get? i).getD []).get? j).getD 0

/-- Mutable state of `ConvolverFFTW` (the fields the methods read or write;
plan objects and logging are omitted, array sizes are carried by the list
lengths).  TD is the time-domain sample ring (float32 in the source), FD the
spectrum ring (complex64 in the source). -/
structure ConvState (TD FD : Type) where
  blockSize : ℕ
  late_early_transition : ℕ
  useSplittedFilters : Bool
  processStereo : Bool
  interpolate : Bool
  buildNewFilter : Bool
  processCounter : ℕ
  buffer : List TD
  buffer2 : List TD
  crossFadeIn : List TD
  crossFadeOut : List TD
  outputLeft : List TD
  outputRight : List TD
  TF_late_left_blocked : List (List FD)
  TF_late_right_blocked : List (List FD)
  TF_left_blocked : List (List FD)
  TF_right_blocked : List (List FD)
  TF_left_blocked_previous : List (List FD)
  TF_right_blocked_previous : List (List FD)
  FDL_left : List (List FD)
  FDL_right : List (List FD)

/-- `ConvolverFFTW.saveOldFilters`. -/
def ConvolverFFTW.saveOldFilters {TD FD : Type} (s : ConvState TD FD) :
    ConvState TD FD :=
  { s with TF_left_blocked_previous := s.TF_left_blocked,
           TF_right_blocked_previous := s.TF_right_blocked }

/-- `ConvolverFFTW.buildFilters`: when split filters are in use and a rebuild
is pending, overwrite the rows from `late_early_transition` on with the late
reverb rows and clear the rebuild flag. -/
def ConvolverFFTW.buildFilters {TD FD : Type} (s : ConvState TD FD) :
    ConvState TD FD :=
  if s.useSplittedFilters = true ∧ s.buildNewFilter = true then
    { s with
      TF_left_blocked :=
        s.TF_left_blocked.take s.late_early_transition ++
          s.TF_late_left_blocked,
      TF_right_blocked :=
        s.TF_right_blocked.take s.late_early_transition ++
          s.TF_late_right_blocked,
      buildNewFilter := false }
  else s

/-- The argument the source passes for `dir_filter`: either the Python
default literal `1` (an int) or an actual directivity Filter. -/
inductive SetIRDirArg (TD FD : Type)
  | intDefault
  | filt (f : Filter TD FD)

/-- `ConvolverFFTW.setIR(filter, do_interpolation, dist, dir_filter)`.
`filter.getFilterFD()` is read first; then `dir_filter.getFilterFD()` — on
the default argument `1` this attribute access raises AttributeError, which
the model returns as an error.  On success the early filter rows are scaled
elementwise by the directivity rows and by the scalar dist and written into
rows [0, late_early_transition) of TF_left/right; the crossfade flag is set
from do_interpolation and a rebuild is requested. -/
def ConvolverFFTW.setIR {TD FD : Type} [Zero FD] [Mul FD]
    (s : ConvState TD FD) (filter : Filter TD FD) (do_interpolation : Bool)
    (dist : FD) (dir_filter : SetIRDirArg TD FD) :
    Except String (ConvState TD FD) := do
  let lr ← filter.getFilterFD
  let dlr ←
    match dir_filter with
    | .intDefault =>
      Except.error
        "AttributeError: int object has no attribute getFilterFD"
    | .filt df => df.getFilterFD
  let prodLeft :=
    (rowsHadamard lr.1 dlr.1).map (fun row => row.map (fun x => x * dist))
  let prodRight :=
    (rowsHadamard lr.2 dlr.2).map (fun row => row.map (fun x => x * dist))
  return { s with
    TF_left_blocked :=
      prodLeft.take s.late_early_transition ++
        s.TF_left_blocked.drop s.late_early_transition,
    TF_right_blocked :=
      prodRight.take s.late_early_transition ++
        s.TF_right_blocked.drop s.late_early_transition,
    interpolate := do_interpolation,
    buildNewFilter := true }

/-- `ConvolverFFTW.fill_buffer_mono(block)`: zero-extend a short block, slide
the length-2N input window, roll the frequency-domain delay lines one row
down (except on the very first call) and store the spectrum of the window at
row 0 of both delay lines. -/
def ConvolverFFTW.fill_buffer_mono {TD FD : Type} [Zero TD]
    (rfft : List TD → List FD) (s : ConvState TD FD) (block : List TD) :
    ConvState TD FD :=
  let block :=
    if block.length < s.blockSize then
      block ++ List.replicate (s.blockSize - block.length) 0
    else block
  let buffer :=
    if s.processCounter = 0 then s.buffer.take s.blockSize ++ block
    else s.buffer.drop s.blockSize ++ block
  let spectrum := rfft buffer
  if s.processCounter = 0 then
    { s with buffer := buffer,
             FDL_left := spectrum :: s.FDL_left.drop 1,
             FDL_right := spectrum :: s.FDL_right.drop 1 }
  else
    { s with buffer := buffer,
             FDL_left := spectrum :: s.FDL_left.dropLast,
             FDL_right := spectrum :: s.FDL_right.dropLast }

/-- `ConvolverFFTW.fill_buffer_stereo(block)`.  Note the source compares
`block.size` (the number of scalar entries, twice the row count) against
`block_size` when deciding whether to zero-extend; the model reproduces
that.  The two ears get the spectra of the two independent input windows. -/
def ConvolverFFTW.fill_buffer_stereo {TD FD : Type} [Zero TD]
    (rfft : List TD → List FD) (s : ConvState TD FD)
    (block : List (TD × TD)) : ConvState TD FD :=
  let block :=
    if 2 * block.length < s.blockSize then
      block ++ List.replicate (s.blockSize - 2 * block.length) (0, 0)
    else block
  let buffer :=
    if s.processCounter = 0 then
      s.buffer.take s.blockSize ++ block.map Prod.fst
    else s.buffer.drop s.blockSize ++ block.map Prod.fst
  let buffer2 :=
    if s.processCounter = 0 then
      s.buffer2.take s.blockSize ++ block.map Prod.snd
    else s.buffer2.drop s.blockSize ++ block.map Prod.snd
  if s.processCounter = 0 then
    { s with buffer := buffer, buffer2 := buffer2,
             FDL_left := rfft buffer :: s.FDL_left.drop 1,
             FDL_right := rfft buffer2 :: s.FDL_right.drop 1 }
  else
    { s with buffer := buffer, buffer2 := buffer2,
             FDL_left := rfft buffer :: s.FDL_left.dropLast,
             FDL_right := rfft buffer2 :: s.FDL_right.dropLast }

/-- The input of one `process` call: the per-source convolvers receive mono
blocks, the headphone compensation convolver stereo blocks. -/
inductive AudioBlock (TD : Type)
  | mono (xs : List TD)
  | stereo (xs : List (TD × TD))

/-- The mono view of an input block (a stereo array handed to a mono
convolver would be a numpy shape error; the application never does it). -/
def AudioBlock.monoData {TD : Type} : AudioBlock TD → List TD
  | .mono xs => xs
  | .stereo _ => []

/-- The stereo view of an input block (same caveat as monoData). -/
def AudioBlock.stereoData {TD : Type} : AudioBlock TD → List (TD × TD)
  | .stereo xs => xs
  | .mono _ => []

/-- Steps 2–7 of `ConvolverFFTW.process` (everything after the buffer fill):
snapshot the filters, rebuild from the late part if pending, accumulate
filter times delay line per ear, inverse-transform and keep the second half
of the length-2N result, and — when a crossfade is pending — repeat with the
snapshotted previous filters and blend with the crossfade windows.  The
process counter is bumped and the crossfade flag cleared in every call. -/
def ConvolverFFTW.processAfterFill {TD FD : Type} [Zero FD] [Add FD]
    [Mul FD] [Zero TD] [Add TD] [Mul TD] (irfft : List FD → List TD)
    (s0 : ConvState TD FD) : ConvState TD FD :=
  let s := ConvolverFFTW.buildFilters (ConvolverFFTW.saveOldFilters s0)
  let w := s.blockSize + 1
  let resultLeftFreq := convolveSpectra w s.TF_left_blocked s.FDL_left
  let resultRightFreq := convolveSpectra w s.TF_right_blocked s.FDL_right
  let outputLeft :=
    pySlice s.blockSize (s.blockSize * 2) (irfft resultLeftFreq)
  let outputRight :=
    pySlice s.blockSize (s.blockSize * 2) (irfft resultRightFreq)
  if s.interpolate = true then
    let resultLeftFreqPrevious :=
      convolveSpectra w s.TF_left_blocked_previous s.FDL_left
    let resultRightFreqPrevious :=
      convolveSpectra w s.TF_right_blocked_previous s.FDL_right
    let outputLeftFaded :=
      List.zipWith (fun a b => a + b)
        (List.zipWith (fun a b => a * b) outputLeft s.crossFadeIn)
        (List.zipWith (fun a b => a * b)
          (pySlice s.blockSize (s.blockSize * 2)
            (irfft resultLeftFreqPrevious))
          s.crossFadeOut)
    let outputRightFaded :=
      List.zipWith (fun a b => a + b)
        (List.zipWith (fun a b => a * b) outputRight s.crossFadeIn)
        (List.zipWith (fun a b => a * b)
          (pySlice s.blockSize (s.blockSize * 2)
            (irfft resultRightFreqPrevious))
          s.crossFadeOut)
    { s with outputLeft := outputLeftFaded,
             outputRight := outputRightFaded,
             processCounter := s.processCounter + 1,
             interpolate := false }
  else
    { s with outputLeft := outputLeft,
             outputRight := outputRight,
             processCounter := s.processCounter + 1,
             interpolate := false }

/-- `ConvolverFFTW.process(block)`: fill the buffers and delay lines from the
input block (mono or stereo according to processStereo), then run the
convolution, inverse transform and optional crossfade. -/
def ConvolverFFTW.process {TD FD : Type} [Zero FD] [Add FD] [Mul FD]
    [Zero TD] [Add TD] [Mul TD] (rfft : List TD → List FD)
    (irfft : List FD → List TD) (s : ConvState TD FD)
    (b : AudioBlock TD) : ConvState TD FD :=
  let s1 :=
    if s.processStereo = true then
      ConvolverFFTW.fill_buffer_stereo rfft s b.stereoData
    else
      ConvolverFFTW.fill_buffer_mono rfft s b.monoData
  ConvolverFFTW.processAfterFill irfft s1

/-- The cosine-square crossfade-out window value from
`ConvolverFFTW.__init__`: entry n of
`np.square(np.cos(np.arange(N) / (N - 1) * (pi / 2)))`, idealised over the
reals. -/
noncomputable def ConvolverFFTW.crossFadeOutVal (N n : ℕ) : ℝ :=
  (Real.cos ((n : ℝ) / ((N : ℝ) - 1) * (Real.pi / 2))) ^ 2

/-- Entry n of the crossfade-in window, `np.flipud(crossFadeOut)`. -/
noncomputable def ConvolverFFTW.crossFadeInVal (N n : ℕ) : ℝ :=
  ConvolverFFTW.crossFadeOutVal N (N - 1 - n)

/-- The crossfade-out window as the list the source stores. -/
noncomputable def ConvolverFFTW.crossFadeOutList (N : ℕ) : List ℝ :=
  (List.range N).map (ConvolverFFTW.crossFadeOutVal N)

/-- The crossfade-in window list, `np.flipud` of the out window. -/
noncomputable def ConvolverFFTW.crossFadeInList (N : ℕ) : List ℝ :=
  (ConvolverFFTW.crossFadeOutList N).reverse

/- ------------------------------------------------------------------
   pybinsim/application.py : BinSim.run_server
   ------------------------------------------------------------------ -/

/-- One inbound zmq message after decoding: the mono audio column and the
three integer-cast control values from the second column. -/
structure ZmqRequest (TD : Type) where
  audio : List TD
  channel : ℤ
  azimuth : ℤ
  elevation : ℤ

/-- The engine state touched by the run_server loop body (convolver and
filter storage interactions are behind the process_block continuation). -/
structure BinSimState (TD : Type) where
  maxChannels : ℕ
  block : List TD
  poseParser : InlinePoseParser

/-- Outcome of one turn of the `while True` loop in `BinSim.run_server`:
no message pending (the zmq.ZMQError raised by the non-blocking recv is
swallowed by the except clause), a handled request, or an uncaught exception
terminating the loop. -/
inductive ServerOutcome (TD : Type)
  | idle (s : BinSimState TD)
  | handled (s : BinSimState TD)
  | crashed (e : String)

/-- One iteration of `BinSim.run_server`.  A missing message surfaces as
zmq.ZMQError and is dropped by the except clause.  For a received request the
audio column is copied into the scratch block, the pose parser is updated
with (channel, azimuth, elevation), and process_block runs (embedded as the
continuation parameter, which may itself raise).  Only zmq.ZMQError is ever
caught: any error raised inside the body escapes the loop as `crashed`. -/
def BinSim.run_server_step {TD : Type}
    (process_block :
      BinSimState TD → ℤ → Except String (BinSimState TD))
    (s : BinSimState TD) (req : Option (ZmqRequest TD)) :
    ServerOutcome TD :=
  match req with
  | none => .idle s
  | some r =>
    let s1 : BinSimState TD := { s with block := r.audio }
    match s1.poseParser.parse_pose_input r.channel r.azimuth r.elevation with
    | .error e => .crashed e
    | .ok ps =>
      match process_block { s1 with poseParser := ps } r.channel with
      | .error e => .crashed e
      | .ok s2 => .handled s2

/- ------------------------------------------------------------------
   Shape predicate and concrete fixtures used by witnesses
   ------------------------------------------------------------------ -/

/-- A [T, width] array: T rows, each of the given width. -/
def wellShaped {FD : Type} (T width : ℕ) (rows : List (List FD)) : Prop :=
  rows.length = T ∧ ∀ r ∈ rows, r.length = width

/-- A one-block stereo filter that has not been prepared into the frequency
domain. -/
def exUnpreparedFilter : Filter ℤ ℤ := Filter.make [(1, 2)] 1 1

/-- A pose with the given azimuth and elevation and zero auxiliary fields. -/
def exPose (az el : ℤ) : Pose := ⟨[az, el, 0, 0, 0, 0, 0, 0, 0]⟩

/-- The storage of the nearest-neighbour scenario: filters (tagged 10, 20,
30) loaded at (0,0), (30,0), (60,0). -/
def exStore : FilterStorageModel ℕ :=
  FilterStorage.load_filters 999
    [(exPose 0 0, 10), (exPose 30 0, 20), (exPose 60 0, 30)]

/-- A concrete stand-in for the forward FFT plan at block size 2 (any
length-3 valued function works for the structural claims). -/
def exRfft : List ℤ → List ℤ := fun xs => (xs ++ [0, 0, 0]).take 3

/-- A concrete stand-in for the inverse FFT plan at block size 2. -/
def exIrfft : List ℤ → List ℤ := fun ys => (ys ++ [0, 0, 0, 0]).take 4

/-- A split-filter convolver (block size 2, one early and one late row) with
a crossfade pending and a fresh late-reverb part awaiting rebuild.  The
windows [0, 1] and [1, 0] are the exact values of the cosine-square windows
at block size 2. -/
def exConvSplit : ConvState ℤ ℤ :=
  { blockSize := 2,
    late_early_transition := 1,
    useSplittedFilters := true,
    processStereo := false,
    interpolate := true,
    buildNewFilter := true,
    processCounter := 5,
    buffer := [0, 0, 0, 0],
    buffer2 := [0, 0, 0, 0],
    crossFadeIn := [0, 1],
    crossFadeOut := [1, 0],
    outputLeft := [0, 0],
    outputRight := [0, 0],
    TF_late_left_blocked := [[1, 1, 1]],
    TF_late_right_blocked := [[1, 1, 1]],
    TF_left_blocked := [[0, 0, 0], [0, 0, 0]],
    TF_right_blocked := [[0, 0, 0], [0, 0, 0]],
    TF_left_blocked_previous := [[0, 0, 0], [0, 0, 0]],
    TF_right_blocked_previous := [[0, 0, 0], [0, 0, 0]],
    FDL_left := [[1, 1, 1], [1, 1, 1]],
    FDL_right := [[1, 1, 1], [1, 1, 1]] }

/-- A plain mono convolver (block size 2, two partitions) with no crossfade
pending. -/
def exConvPlain : ConvState ℤ ℤ :=
  { blockSize := 2,
    late_early_transition := 2,
    useSplittedFilters := false,
    processStereo := false,
    interpolate := false,
    buildNewFilter := false,
    processCounter := 3,
    buffer := [7, 8, 9, 10],
    buffer2 := [0, 0, 0, 0],
    crossFadeIn := [0, 1],
    crossFadeOut := [1, 0],
    outputLeft := [0, 0],
    outputRight := [0, 0],
    TF_late_left_blocked := [],
    TF_late_right_blocked := [],
    TF_left_blocked := [[1, 0, 2], [0, 1, 0]],
    TF_right_blocked := [[2, 1, 0], [1, 0, 1]],
    TF_left_blocked_previous := [[0, 0, 0], [0, 0, 0]],
    TF_right_blocked_previous := [[0, 0, 0], [0, 0, 0]],
    FDL_left := [[1, 2, 3], [4, 5, 6]],
    FDL_right := [[1, 1, 1], [2, 2, 2]] }

/-- Like exConvPlain but with a crossfade pending and distinct previous
filters already snapshotted. -/
def exConvXfade : ConvState ℤ ℤ :=
  { exConvPlain with interpolate := true }

/-- A process_block continuation that succeeds without touching the state
(the convolver interaction is irrelevant to the server-loop claims). -/
def exProcessBlock : BinSimState ℤ → ℤ → Except String (BinSimState ℤ) :=
  fun st _ => .ok st

/-- A two-channel engine state with a freshly initialised pose parser. -/
def exServerState : BinSimState ℤ :=
  { maxChannels := 2, block := [], poseParser := InlinePoseParser.init 2 }

/-- A request addressed to channel 5 on the two-channel engine. -/
def exBadChannelRequest : ZmqRequest ℤ :=
  { audio := [3, 4], channel := 5, azimuth := 10, elevation := 20 }

/- ------------------------------------------------------------------
   General helper lemmas
   ------------------------------------------------------------------ -/

theorem pyGet_natCast {γ : Type} (l : List γ) (ch : ℕ) :
    pyGet l (ch : ℤ) = l.get? ch := by
  simp [pyGet]

theorem pySet_natCast {γ : Type} (l : List γ) (ch : ℕ) (v : γ) :
    pySet l (ch : ℤ) v = l.set ch v := by
  simp [pySet]

theorem pyGet_none_of_le {γ : Type} (l : List γ) (i : ℤ)
    (h : (l.length : ℤ) ≤ i) : pyGet l i = none := by
  have h0 : 0 ≤ i := le_trans (by exact_mod_cast Nat.zero_le _) h
  simp [pyGet, h0, List.get?_eq_none]
  omega

theorem lookupKey_setKey (d : List (String × PyConfigVal)) (k : String)
    (v w : PyConfigVal) (h : lookupKey d k = some w) :
    lookupKey (setKey d k v) k = some v := by
  induction d with
  | nil => simp [lookupKey] at h
  | cons e d ih =>
    by_cases he : e.1 = k
    · simp [lookupKey, setKey, he]
    · have h' : lookupKey d k = some w := by
        simpa [lookupKey, List.find?, he] using h
      have ih' := ih h'
      simpa [lookupKey, setKey, he, List.find?] using ih'

/- ------------------------------------------------------------------
   Claim C10: unparseable boolean config values are stored as None
   ------------------------------------------------------------------ -/

/-- C10: for every recognized configuration key of boolean type,
read_from_file given a value string other than True or False emits a warning
and stores Python None under the key, so a subsequent get for that key
returns None rather than the documented boolean default. -/
theorem claim_C10_bool_config_bad_value_stores_none
    (pyInt : String → Option ℤ) (pyFloat : String → Option ℚ)
    (key value : String) (b : Bool)
    (hkey : lookupKey defaultConfigurationDict key = some (.pbool b))
    (hv1 : value ≠ "True") (hv2 : value ≠ "False") :
    ∃ warns,
      BinSimConfig.read_config_line pyInt pyFloat defaultConfigurationDict
          key value =
        .ok (setKey defaultConfigurationDict key .pnone, warns) ∧
      warns ≠ [] ∧
      BinSimConfig.get (setKey defaultConfigurationDict key .pnone) key =
        some .pnone ∧
      PyConfigVal.pnone ≠ .pbool b := by
  refine ⟨["Cannot convert " ++ value ++ " to bool. (key: " ++ key], ?_, ?_, ?_, ?_⟩
  · simp [BinSimConfig.read_config_line, hkey, parse_boolean, hv1, hv2]
  · simp
  · exact lookupKey_setKey _ _ _ _ hkey
  · simp

/-- Witness for C10 at the recognized boolean key loopSound and the
unparseable value yes. -/
theorem claim_C10_witness :
    ∃ warns,
      BinSimConfig.read_config_line (fun _ => none) (fun _ => none)
          defaultConfigurationDict "loopSound" "yes" =
        .ok (setKey defaultConfigurationDict "loopSound" .pnone, warns) ∧
      warns ≠ [] ∧
      BinSimConfig.get (setKey defaultConfigurationDict "loopSound" .pnone)
          "loopSound" = some .pnone ∧
      PyConfigVal.pnone ≠ .pbool true :=
  claim_C10_bool_config_bad_value_stores_none (fun _ => none) (fun _ => none)
    "loopSound" "yes" true (by decide) (by decide) (by decide)

/- ------------------------------------------------------------------
   Claim C9: pose dirty-flag semantics
   ------------------------------------------------------------------ -/

theorem replicate_getElem? {γ : Type} (x : γ) (n i : ℕ) (h : i < n) :
    (List.replicate n x)[i]? = some x := by
  rw [List.getElem?_eq_getElem (by simpa using h)]
  simp

theorem pyGet_natCast' {γ : Type} (l : List γ) (ch : ℕ) :
    pyGet l (ch : ℤ) = l[ch]? := by
  simp [pyGet]

/-- C9: for a channel in range, the dirty flag starts true; update sets it
true exactly when (az, el) differs from the first two stored fields, storing
the pair padded with zeros; consume returns the stored pose and clears the
flag; and after a consume the flag stays false under updates with the same
pair and turns true again on a different pair. -/
theorem claim_C9_pose_dirty_semantics (maxChannels ch : ℕ)
    (hch : ch < maxChannels) (s : InlinePoseParser)
    (hflags : s.filtersUpdated.length = maxChannels)
    (hvals : s.valueList.length = maxChannels)
    (stored : List ℤ) (hstored : s.valueList[ch]? = some stored)
    (az el : ℤ) :
    (InlinePoseParser.init maxChannels).filtersUpdated[ch]? = some true ∧
    ([az, el] ≠ stored.take 2 →
      s.parse_pose_input (ch : ℤ) az el =
        .ok ⟨s.filtersUpdated.set ch true,
             s.valueList.set ch ([az, el] ++ List.replicate 7 0)⟩) ∧
    ([az, el] = stored.take 2 →
      s.parse_pose_input (ch : ℤ) az el = .ok s) ∧
    s.get_current_values (ch : ℤ) =
      .ok (stored, ⟨s.filtersUpdated.set ch false, s.valueList⟩) ∧
    InlinePoseParser.is_filter_update_necessary
        ⟨s.filtersUpdated.set ch false, s.valueList⟩ (ch : ℤ) = .ok false ∧
    ([az, el] = stored.take 2 →
      InlinePoseParser.parse_pose_input
          ⟨s.filtersUpdated.set ch false, s.valueList⟩ (ch : ℤ) az el =
        .ok ⟨s.filtersUpdated.set ch false, s.valueList⟩) ∧
    ([az, el] ≠ stored.take 2 →
      ∃ s2, InlinePoseParser.parse_pose_input
          ⟨s.filtersUpdated.set ch false, s.valueList⟩ (ch : ℤ) az el =
          .ok s2 ∧
        s2.is_filter_update_necessary (ch : ℤ) = .ok true) := by
  have hdv : InlinePoseParser.defaultValue.drop 2 = List.replicate 7 0 := by
    decide
  refine ⟨?_, ?_, ?_, ?_, ?_, ?_, ?_⟩
  · exact replicate_getElem? true maxChannels ch hch
  · intro hne
    simp [InlinePoseParser.parse_pose_input, pyGet_natCast', hstored, hne,
          pySet_natCast, hdv]
  · intro heq
    simp [InlinePoseParser.parse_pose_input, pyGet_natCast', hstored, heq]
  · simp [InlinePoseParser.get_current_values, pyGet_natCast', hstored,
          pySet_natCast]
  · have hset : (s.filtersUpdated.set ch false)[ch]? = some false :=
      List.getElem?_set_eq_of_lt false (by rw [hflags]; exact hch)
    simp [InlinePoseParser.is_filter_update_necessary, pyGet_natCast', hset]
  · intro heq
    simp [InlinePoseParser.parse_pose_input, pyGet_natCast', hstored, heq]
  · intro hne
    refine ⟨⟨(s.filtersUpdated.set ch false).set ch true,
             s.valueList.set ch ([az, el] ++ List.replicate 7 0)⟩, ?_, ?_⟩
    · simp [InlinePoseParser.parse_pose_input, pyGet_natCast', hstored, hne,
            pySet_natCast, hdv]
    · have hset : (s.filtersUpdated.set ch true)[ch]? = some true :=
        List.getElem?_set_eq_of_lt true (by rw [hflags]; exact hch)
      simp [InlinePoseParser.is_filter_update_necessary, pyGet_natCast', hset]

/-- Witness for C9 on a freshly initialised two-channel parser at channel 0
with the update (7, 9). -/
theorem claim_C9_witness :
    (InlinePoseParser.init 2).filtersUpdated[0]? = some true ∧
    ([(7 : ℤ), 9] ≠ (List.replicate 9 (0 : ℤ)).take 2 →
      (InlinePoseParser.init 2).parse_pose_input 0 7 9 =
        .ok ⟨(InlinePoseParser.init 2).filtersUpdated.set 0 true,
             (InlinePoseParser.init 2).valueList.set 0
               ([7, 9] ++ List.replicate 7 0)⟩) ∧
    ([(7 : ℤ), 9] = (List.replicate 9 (0 : ℤ)).take 2 →
      (InlinePoseParser.init 2).parse_pose_input 0 7 9 =
        .ok (InlinePoseParser.init 2)) ∧
    (InlinePoseParser.init 2).get_current_values 0 =
      .ok (List.replicate 9 0,
           ⟨(InlinePoseParser.init 2).filtersUpdated.set 0 false,
            (InlinePoseParser.init 2).valueList⟩) ∧
    InlinePoseParser.is_filter_update_necessary
        ⟨(InlinePoseParser.init 2).filtersUpdated.set 0 false,
         (InlinePoseParser.init 2).valueList⟩ 0 = .ok false ∧
    ([(7 : ℤ), 9] = (List.replicate 9 (0 : ℤ)).take 2 →
      InlinePoseParser.parse_pose_input
          ⟨(InlinePoseParser.init 2).filtersUpdated.set 0 false,
           (InlinePoseParser.init 2).valueList⟩ 0 7 9 =
        .ok ⟨(InlinePoseParser.init 2).filtersUpdated.set 0 false,
             (InlinePoseParser.init 2).valueList⟩) ∧
    ([(7 : ℤ), 9] ≠ (List.replicate 9 (0 : ℤ)).take 2 →
      ∃ s2, InlinePoseParser.parse_pose_input
          ⟨(InlinePoseParser.init 2).filtersUpdated.set 0 false,
           (InlinePoseParser.init 2).valueList⟩ 0 7 9 = .ok s2 ∧
        s2.is_filter_update_necessary 0 = .ok true) := by
  have h := claim_C9_pose_dirty_semantics 2 0 (by decide)
    (InlinePoseParser.init 2) (by decide) (by decide)
    (List.replicate 9 0) (by decide) 7 9
  simpa using h

/- ------------------------------------------------------------------
   Claim C5: requests with channel id beyond maxChannels
   ------------------------------------------------------------------ -/

/-- C5 counterexample: on a two-channel engine a request for channel 5 is
not dropped-and-continued; the list access in parse_pose_input raises
IndexError, which the run_server loop (catching only zmq.ZMQError) lets
escape, terminating the loop. -/
theorem claim_C5_counterexample :
    BinSim.run_server_step exProcessBlock exServerState
        (some exBadChannelRequest) =
      .crashed "IndexError: list index out of range" ∧
    (∀ s2, BinSim.run_server_step exProcessBlock exServerState
        (some exBadChannelRequest) ≠ .handled s2) ∧
    (∀ s2, BinSim.run_server_step exProcessBlock exServerState
        (some exBadChannelRequest) ≠ .idle s2) := by
  refine ⟨rfl, ?_, ?_⟩ <;> intro s2 h <;> cases h

/-- C5 amended: a request whose channel id is at least maxChannels makes the
loop body raise IndexError out of parse_pose_input; the except clause
catches only zmq.ZMQError, so the iteration ends in `crashed` (loop
termination) for every process_block continuation, rather than dropping the
request and continuing. -/
theorem claim_C5_amended_channel_overflow_crashes {TD : Type}
    (process_block : BinSimState TD → ℤ → Except String (BinSimState TD))
    (s : BinSimState TD) (r : ZmqRequest TD)
    (hwf : s.poseParser.valueList.length = s.maxChannels)
    (hch : (s.maxChannels : ℤ) ≤ r.channel) :
    BinSim.run_server_step process_block s (some r) =
      .crashed "IndexError: list index out of range" := by
  have hnone : pyGet s.poseParser.valueList r.channel = none := by
    apply pyGet_none_of_le
    rw [hwf]; exact hch
  simp [BinSim.run_server_step, InlinePoseParser.parse_pose_input, hnone]

/-- Witness for the amended C5 on the concrete two-channel engine. -/
theorem claim_C5_witness :
    BinSim.run_server_step exProcessBlock exServerState
        (some exBadChannelRequest) =
      .crashed "IndexError: list index out of range" :=
  claim_C5_amended_channel_overflow_crashes exProcessBlock exServerState
    exBadChannelRequest (by decide) (by decide)

/- ------------------------------------------------------------------
   Claim C6: length normalisation of loaded impulse responses
   ------------------------------------------------------------------ -/

/-- C6 counterexample: a late-reverb impulse response of length 2 with
target size 4 is returned unpadded (length 2), not zero-padded to the
target size as the claim states for every population. -/
theorem claim_C6_counterexample :
    FilterStorage.load_filter 8 4 4 FilterType.LateReverbFilter
        [((1 : ℤ), 1), (2, 2)] = [((1 : ℤ), 1), (2, 2)] ∧
    FilterStorage.load_filter 8 4 4 FilterType.LateReverbFilter
        [((1 : ℤ), 1), (2, 2)] ≠
      [((1 : ℤ), 1), (2, 2)] ++ List.replicate 2 (0, 0) ∧
    (FilterStorage.load_filter 8 4 4 FilterType.LateReverbFilter
        [((1 : ℤ), 1), (2, 2)]).length ≠ 4 := by
  refine ⟨by decide, by decide, by decide⟩

/-- C6 amended: directional (Filter) and directivity files are zero-padded
when short and truncated when long; late-reverb files are only truncated
when long and are left at their original length when short. -/
theorem claim_C6_amended_length_normalisation {α : Type} [Zero α]
    (ir lr dv : ℕ) (file : List (α × α)) :
    (file.length ≤ ir →
      FilterStorage.load_filter ir lr dv FilterType.Filter file =
        file ++ List.replicate (ir - file.length) (0, 0)) ∧
    (ir ≤ file.length →
      FilterStorage.load_filter ir lr dv FilterType.Filter file =
        file.take ir) ∧
    (FilterStorage.load_filter ir lr dv FilterType.Filter file).length =
      ir ∧
    FilterStorage.load_filter ir lr dv FilterType.LateReverbFilter file =
      (if lr < file.length then file.take lr else file) ∧
    (FilterStorage.load_filter ir lr dv FilterType.LateReverbFilter
        file).length = min file.length lr ∧
    (file.length ≤ dv →
      FilterStorage.load_filter ir lr dv FilterType.Directivity file =
        file.map (fun p => (p.1, p.1)) ++
          List.replicate (dv - file.length) (0, 0)) ∧
    (dv ≤ file.length →
      FilterStorage.load_filter ir lr dv FilterType.Directivity file =
        (file.map (fun p => (p.1, p.1))).take dv) ∧
    (FilterStorage.load_filter ir lr dv FilterType.Directivity
        file).length = dv := by
  refine ⟨?_, ?_, ?_, ?_, ?_, ?_, ?_, ?_⟩
  · intro h
    simp only [FilterStorage.load_filter]
    split_ifs with h1 h2 h3 <;> simp_all <;> omega
  · intro h
    simp only [FilterStorage.load_filter]
    split_ifs with h1 h2 h3 <;> simp_all
  · simp only [FilterStorage.load_filter]
    split_ifs with h1 h2 h3 <;> simp_all <;> omega
  · simp only [FilterStorage.load_filter]
    split_ifs <;> simp_all
  · simp only [FilterStorage.load_filter]
    split_ifs <;> simp_all <;> omega
  · intro h
    simp only [FilterStorage.load_filter]
    split_ifs with h1 h2 <;> simp_all <;> omega
  · intro h
    simp only [FilterStorage.load_filter]
    split_ifs with h1 h2 <;> simp_all
  · simp only [FilterStorage.load_filter]
    split_ifs <;> simp_all <;> omega

/-- Witness for the amended C6: a one-sample directional file padded to
target 3, and a five-sample one truncated. -/
theorem claim_C6_witness :
    FilterStorage.load_filter 3 2 2 FilterType.Filter [((5 : ℤ), 6)] =
      [((5 : ℤ), 6)] ++ List.replicate 2 (0, 0) ∧
    FilterStorage.load_filter 2 2 2 FilterType.Filter
        [((1 : ℤ), 1), (2, 2), (3, 3)] =
      [((1 : ℤ), 1), (2, 2), (3, 3)].take 2 :=
  ⟨(claim_C6_amended_length_normalisation 3 2 2 [((5 : ℤ), 6)]).1
      (by decide),
   (claim_C6_amended_length_normalisation 2 2 2
      [((1 : ℤ), 1), (2, 2), (3, 3)]).2.1 (by decide)⟩

/- ------------------------------------------------------------------
   Claim C7: spectra access on an unprepared Filter
   ------------------------------------------------------------------ -/

/-- C7 counterexample: getFilterFD on a Filter that was never prepared does
not raise; it returns zero-filled arrays of shape
[ir_blocks, block_size + 1]. -/
theorem claim_C7_counterexample :
    Filter.getFilterFD exUnpreparedFilter =
      .ok (List.replicate 1 (List.replicate 2 0),
           List.replicate 1 (List.replicate 2 0)) ∧
    ∀ e, Filter.getFilterFD exUnpreparedFilter ≠ .error e := by
  refine ⟨rfl, ?_⟩
  intro e h
  cases h

/-- C7 amended: on an unprepared Filter, getFilterFD logs a warning and
returns all-zero arrays of shape [ir_blocks, block_size + 1] instead of
failing. -/
theorem claim_C7_amended_unprepared_returns_zeros {TD FD : Type} [Zero FD]
    (f : Filter TD FD) (h : f.fd_available = false) :
    f.getFilterFD =
      .ok (List.replicate f.ir_blocks (List.replicate (f.block_size + 1) 0),
           List.replicate f.ir_blocks
             (List.replicate (f.block_size + 1) 0)) := by
  simp [Filter.getFilterFD, h]

/-- Witness for the amended C7 at the concrete unprepared filter. -/
theorem claim_C7_witness :
    Filter.getFilterFD exUnpreparedFilter =
      .ok (List.replicate exUnpreparedFilter.ir_blocks
             (List.replicate (exUnpreparedFilter.block_size + 1) 0),
           List.replicate exUnpreparedFilter.ir_blocks
             (List.replicate (exUnpreparedFilter.block_size + 1) 0)) :=
  claim_C7_amended_unprepared_returns_zeros exUnpreparedFilter rfl

/- ------------------------------------------------------------------
   Claim C4: set_filter with the directivity argument absent
   ------------------------------------------------------------------ -/

/-- C4: the source documents dist and dir_filter as optional (unit if
absent), but with dir_filter left at its default (the int literal 1) the
attribute access dir_filter.getFilterFD() raises AttributeError for every
state, filter, crossfade flag and distance — the call never succeeds, and
no filter rows are copied. -/
theorem claim_C4_setIR_default_directivity_raises {TD FD : Type} [Zero FD]
    [Mul FD] (s : ConvState TD FD) (filter : Filter TD FD)
    (do_interpolation : Bool) (dist : FD) :
    ConvolverFFTW.setIR s filter do_interpolation dist
        SetIRDirArg.intDefault =
      .error "AttributeError: int object has no attribute getFilterFD" := by
  unfold ConvolverFFTW.setIR Filter.getFilterFD
  split_ifs <;> rfl

/-- Witness for C4: the failing call on the concrete plain convolver with
the concrete (unprepared) filter, crossfade requested and unit distance. -/
theorem claim_C4_witness :
    ConvolverFFTW.setIR exConvPlain exUnpreparedFilter true 1
        SetIRDirArg.intDefault =
      .error "AttributeError: int object has no attribute getFilterFD" :=
  claim_C4_setIR_default_directivity_raises exConvPlain exUnpreparedFilter
    true 1

/- ------------------------------------------------------------------
   Claim C8: crossfade window identities
   ------------------------------------------------------------------ -/

theorem crossFadeInVal_eq_sin_sq (N n : ℕ) (hN : 2 ≤ N) (hn : n < N) :
    ConvolverFFTW.crossFadeInVal N n =
      (Real.sin ((n : ℝ) / ((N : ℝ) - 1) * (Real.pi / 2))) ^ 2 := by
  unfold ConvolverFFTW.crossFadeInVal ConvolverFFTW.crossFadeOutVal
  have h1 : (1 : ℕ) ≤ N := by omega
  have h2 : n ≤ N - 1 := by omega
  have hc : ((N - 1 - n : ℕ) : ℝ) = (N : ℝ) - 1 - (n : ℝ) := by
    push_cast [Nat.cast_sub h2, Nat.cast_sub h1]
    ring
  rw [hc]
  have hge : (2 : ℝ) ≤ (N : ℝ) := by exact_mod_cast hN
  have hne : (N : ℝ) - 1 ≠ 0 := by
    intro h
    nlinarith
  have harg : ((N : ℝ) - 1 - n) / ((N : ℝ) - 1) * (Real.pi / 2) =
      Real.pi / 2 - (n : ℝ) / ((N : ℝ) - 1) * (Real.pi / 2) := by
    field_simp
    ring
  rw [harg, Real.cos_pi_div_two_sub]

theorem crossFadeOutList_get? (N n : ℕ) (hn : n < N) :
    (ConvolverFFTW.crossFadeOutList N).get? n =
      some (ConvolverFFTW.crossFadeOutVal N n) := by
  unfold ConvolverFFTW.crossFadeOutList
  rw [List.get?_map, List.get?_range hn]
  rfl

theorem crossFadeInList_get? (N n : ℕ) (hn : n < N) :
    (ConvolverFFTW.crossFadeInList N).get? n =
      some (ConvolverFFTW.crossFadeInVal N n) := by
  unfold ConvolverFFTW.crossFadeInList
  have hlen : (ConvolverFFTW.crossFadeOutList N).length = N := by
    simp [ConvolverFFTW.crossFadeOutList]
  rw [List.get?_reverse (by rw [hlen]; exact hn), hlen]
  exact crossFadeOutList_get? N (N - 1 - n) (by omega)

/-- C8: for every index n below the block size N, the crossfade windows of
the convolver satisfy in + out = 1, with out the cosine-squared window at
pi n / (2 (N - 1)) and in its flipped (sine-squared) counterpart; the out
window starts at 1 and the in window ends at 1.  (N = 1 is excluded: there
the source divides zero by zero.) -/
theorem claim_C8_crossfade_windows (N n : ℕ) (hN : 2 ≤ N) (hn : n < N) :
    (ConvolverFFTW.crossFadeInList N).get? n =
      some ((Real.sin (Real.pi * n / (2 * ((N : ℝ) - 1)))) ^ 2) ∧
    (ConvolverFFTW.crossFadeOutList N).get? n =
      some ((Real.cos (Real.pi * n / (2 * ((N : ℝ) - 1)))) ^ 2) ∧
    ConvolverFFTW.crossFadeInVal N n + ConvolverFFTW.crossFadeOutVal N n =
      1 ∧
    ConvolverFFTW.crossFadeOutVal N 0 = 1 ∧
    ConvolverFFTW.crossFadeInVal N (N - 1) = 1 := by
  have hge : (2 : ℝ) ≤ (N : ℝ) := by exact_mod_cast hN
  have hne : (N : ℝ) - 1 ≠ 0 := by
    intro h
    nlinarith
  have harg : (n : ℝ) / ((N : ℝ) - 1) * (Real.pi / 2) =
      Real.pi * n / (2 * ((N : ℝ) - 1)) := by
    field_simp
    ring
  have hin := crossFadeInVal_eq_sin_sq N n hN hn
  have hout : ConvolverFFTW.crossFadeOutVal N n =
      (Real.cos (Real.pi * n / (2 * ((N : ℝ) - 1)))) ^ 2 := by
    unfold ConvolverFFTW.crossFadeOutVal
    rw [harg]
  refine ⟨?_, ?_, ?_, ?_, ?_⟩
  · rw [crossFadeInList_get? N n hn, hin, harg]
  · rw [crossFadeOutList_get? N n hn, hout]
  · rw [hin, hout, harg]
    exact Real.sin_sq_add_cos_sq _
  · unfold ConvolverFFTW.crossFadeOutVal
    simp
  · unfold ConvolverFFTW.crossFadeInVal
    have : N - 1 - (N - 1) = 0 := by omega
    rw [this]
    unfold ConvolverFFTW.crossFadeOutVal
    simp

/-- Witness for C8 at block size 4 and index 1. -/
theorem claim_C8_witness :
    (ConvolverFFTW.crossFadeInList 4).get? 1 =
      some ((Real.sin (Real.pi * 1 / (2 * ((4 : ℝ) - 1)))) ^ 2) ∧
    (ConvolverFFTW.crossFadeOutList 4).get? 1 =
      some ((Real.cos (Real.pi * 1 / (2 * ((4 : ℝ) - 1)))) ^ 2) ∧
    ConvolverFFTW.crossFadeInVal 4 1 + ConvolverFFTW.crossFadeOutVal 4 1 =
      1 ∧
    ConvolverFFTW.crossFadeOutVal 4 0 = 1 ∧
    ConvolverFFTW.crossFadeInVal 4 (4 - 1) = 1 := by
  have h := claim_C8_crossfade_windows 4 1 (by norm_num) (by norm_num)
  simpa using h

/- ------------------------------------------------------------------
   Projection lemmas for the convolver processing stages
   ------------------------------------------------------------------ -/

section ConvolverLemmas

variable {TD FD : Type} [Zero TD] [Add TD] [Mul TD] [Zero FD] [Add FD]
  [Mul FD]

@[simp] theorem buildFilters_interpolate (s : ConvState TD FD) :
    (ConvolverFFTW.buildFilters s).interpolate = s.interpolate := by
  unfold ConvolverFFTW.buildFilters
  split <;> rfl

@[simp] theorem buildFilters_blockSize (s : ConvState TD FD) :
    (ConvolverFFTW.buildFilters s).blockSize = s.blockSize := by
  unfold ConvolverFFTW.buildFilters
  split <;> rfl

@[simp] theorem buildFilters_crossFadeIn (s : ConvState TD FD) :
    (ConvolverFFTW.buildFilters s).crossFadeIn = s.crossFadeIn := by
  unfold ConvolverFFTW.buildFilters
  split <;> rfl

@[simp] theorem buildFilters_crossFadeOut (s : ConvState TD FD) :
    (ConvolverFFTW.buildFilters s).crossFadeOut = s.crossFadeOut := by
  unfold ConvolverFFTW.buildFilters
  split <;> rfl

@[simp] theorem buildFilters_FDL_left (s : ConvState TD FD) :
    (ConvolverFFTW.buildFilters s).FDL_left = s.FDL_left := by
  unfold ConvolverFFTW.buildFilters
  split <;> rfl

@[simp] theorem buildFilters_FDL_right (s : ConvState TD FD) :
    (ConvolverFFTW.buildFilters s).FDL_right = s.FDL_right := by
  unfold ConvolverFFTW.buildFilters
  split <;> rfl

@[simp] theorem buildFilters_TF_left_blocked_previous (s : ConvState TD FD) :
    (ConvolverFFTW.buildFilters s).TF_left_blocked_previous =
      s.TF_left_blocked_previous := by
  unfold ConvolverFFTW.buildFilters
  split <;> rfl

@[simp] theorem buildFilters_TF_right_blocked_previous
    (s : ConvState TD FD) :
    (ConvolverFFTW.buildFilters s).TF_right_blocked_previous =
      s.TF_right_blocked_previous := by
  unfold ConvolverFFTW.buildFilters
  split <;> rfl

@[simp] theorem buildFilters_buffer (s : ConvState TD FD) :
    (ConvolverFFTW.buildFilters s).buffer = s.buffer := by
  unfold ConvolverFFTW.buildFilters
  split <;> rfl

@[simp] theorem buildFilters_buffer2 (s : ConvState TD FD) :
    (ConvolverFFTW.buildFilters s).buffer2 = s.buffer2 := by
  unfold ConvolverFFTW.buildFilters
  split <;> rfl

@[simp] theorem buildFilters_processCounter (s : ConvState TD FD) :
    (ConvolverFFTW.buildFilters s).processCounter = s.processCounter := by
  unfold ConvolverFFTW.buildFilters
  split <;> rfl

theorem buildFilters_TF_left_blocked (s : ConvState TD FD) :
    (ConvolverFFTW.buildFilters s).TF_left_blocked =
      if s.useSplittedFilters = true ∧ s.buildNewFilter = true then
        s.TF_left_blocked.take s.late_early_transition ++
          s.TF_late_left_blocked
      else s.TF_left_blocked := by
  unfold ConvolverFFTW.buildFilters
  split <;> simp_all

theorem buildFilters_TF_right_blocked (s : ConvState TD FD) :
    (ConvolverFFTW.buildFilters s).TF_right_blocked =
      if s.useSplittedFilters = true ∧ s.buildNewFilter = true then
        s.TF_right_blocked.take s.late_early_transition ++
          s.TF_late_right_blocked
      else s.TF_right_blocked := by
  unfold ConvolverFFTW.buildFilters
  split <;> simp_all

theorem processAfterFill_interpolate (irfft : List FD → List TD)
    (s1 : ConvState TD FD) :
    (ConvolverFFTW.processAfterFill irfft s1).interpolate = false := by
  simp only [ConvolverFFTW.processAfterFill]
  split <;> rfl

theorem processAfterFill_processCounter (irfft : List FD → List TD)
    (s1 : ConvState TD FD) :
    (ConvolverFFTW.processAfterFill irfft s1).processCounter =
      s1.processCounter + 1 := by
  simp only [ConvolverFFTW.processAfterFill]
  split <;> simp [ConvolverFFTW.saveOldFilters]

theorem processAfterFill_blockSize (irfft : List FD → List TD)
    (s1 : ConvState TD FD) :
    (ConvolverFFTW.processAfterFill irfft s1).blockSize = s1.blockSize := by
  simp only [ConvolverFFTW.processAfterFill]
  split <;> simp [ConvolverFFTW.saveOldFilters]

theorem processAfterFill_crossFadeIn (irfft : List FD → List TD)
    (s1 : ConvState TD FD) :
    (ConvolverFFTW.processAfterFill irfft s1).crossFadeIn =
      s1.crossFadeIn := by
  simp only [ConvolverFFTW.processAfterFill]
  split <;> simp [ConvolverFFTW.saveOldFilters]

theorem processAfterFill_crossFadeOut (irfft : List FD → List TD)
    (s1 : ConvState TD FD) :
    (ConvolverFFTW.processAfterFill irfft s1).crossFadeOut =
      s1.crossFadeOut := by
  simp only [ConvolverFFTW.processAfterFill]
  split <;> simp [ConvolverFFTW.saveOldFilters]

theorem processAfterFill_FDL_left (irfft : List FD → List TD)
    (s1 : ConvState TD FD) :
    (ConvolverFFTW.processAfterFill irfft s1).FDL_left = s1.FDL_left := by
  simp only [ConvolverFFTW.processAfterFill]
  split <;> simp [ConvolverFFTW.saveOldFilters]

theorem processAfterFill_FDL_right (irfft : List FD → List TD)
    (s1 : ConvState TD FD) :
    (ConvolverFFTW.processAfterFill irfft s1).FDL_right = s1.FDL_right := by
  simp only [ConvolverFFTW.processAfterFill]
  split <;> simp [ConvolverFFTW.saveOldFilters]

theorem processAfterFill_buffer (irfft : List FD → List TD)
    (s1 : ConvState TD FD) :
    (ConvolverFFTW.processAfterFill irfft s1).buffer = s1.buffer := by
  simp only [ConvolverFFTW.processAfterFill]
  split <;> simp [ConvolverFFTW.saveOldFilters]

theorem processAfterFill_buffer2 (irfft : List FD → List TD)
    (s1 : ConvState TD FD) :
    (ConvolverFFTW.processAfterFill irfft s1).buffer2 = s1.buffer2 := by
  simp only [ConvolverFFTW.processAfterFill]
  split <;> simp [ConvolverFFTW.saveOldFilters]

theorem processAfterFill_TF_left_blocked_previous
    (irfft : List FD → List TD) (s1 : ConvState TD FD) :
    (ConvolverFFTW.processAfterFill irfft s1).TF_left_blocked_previous =
      s1.TF_left_blocked := by
  simp only [ConvolverFFTW.processAfterFill]
  split <;> simp [ConvolverFFTW.saveOldFilters]

theorem processAfterFill_TF_right_blocked_previous
    (irfft : List FD → List TD) (s1 : ConvState TD FD) :
    (ConvolverFFTW.processAfterFill irfft s1).TF_right_blocked_previous =
      s1.TF_right_blocked := by
  simp only [ConvolverFFTW.processAfterFill]
  split <;> simp [ConvolverFFTW.saveOldFilters]

theorem processAfterFill_TF_left_blocked (irfft : List FD → List TD)
    (s1 : ConvState TD FD) :
    (ConvolverFFTW.processAfterFill irfft s1).TF_left_blocked =
      (ConvolverFFTW.buildFilters
        (ConvolverFFTW.saveOldFilters s1)).TF_left_blocked := by
  simp only [ConvolverFFTW.processAfterFill]
  split <;> rfl

theorem processAfterFill_TF_right_blocked (irfft : List FD → List TD)
    (s1 : ConvState TD FD) :
    (ConvolverFFTW.processAfterFill irfft s1).TF_right_blocked =
      (ConvolverFFTW.buildFilters
        (ConvolverFFTW.saveOldFilters s1)).TF_right_blocked := by
  simp only [ConvolverFFTW.processAfterFill]
  split <;> rfl

theorem processAfterFill_output_plain (irfft : List FD → List TD)
    (s1 : ConvState TD FD) (h : s1.interpolate = false) :
    (ConvolverFFTW.processAfterFill irfft s1).outputLeft =
      pySlice s1.blockSize (s1.blockSize * 2)
        (irfft (convolveSpectra (s1.blockSize + 1)
          (ConvolverFFTW.processAfterFill irfft s1).TF_left_blocked
          (ConvolverFFTW.processAfterFill irfft s1).FDL_left)) ∧
    (ConvolverFFTW.processAfterFill irfft s1).outputRight =
      pySlice s1.blockSize (s1.blockSize * 2)
        (irfft (convolveSpectra (s1.blockSize + 1)
          (ConvolverFFTW.processAfterFill irfft s1).TF_right_blocked
          (ConvolverFFTW.processAfterFill irfft s1).FDL_right)) := by
  rw [processAfterFill_TF_left_blocked, processAfterFill_TF_right_blocked,
      processAfterFill_FDL_left, processAfterFill_FDL_right]
  simp only [ConvolverFFTW.processAfterFill]
  have hi : (ConvolverFFTW.buildFilters
      (ConvolverFFTW.saveOldFilters s1)).interpolate = false := by
    simp [ConvolverFFTW.saveOldFilters, h]
  simp only [hi]
  simp [ConvolverFFTW.saveOldFilters]

theorem processAfterFill_output_xfade (irfft : List FD → List TD)
    (s1 : ConvState TD FD) (h : s1.interpolate = true) :
    (ConvolverFFTW.processAfterFill irfft s1).outputLeft =
      List.zipWith (fun a b => a + b)
        (List.zipWith (fun a b => a * b)
          (pySlice s1.blockSize (s1.blockSize * 2)
            (irfft (convolveSpectra (s1.blockSize + 1)
              (ConvolverFFTW.processAfterFill irfft s1).TF_left_blocked
              (ConvolverFFTW.processAfterFill irfft s1).FDL_left)))
          s1.crossFadeIn)
        (List.zipWith (fun a b => a * b)
          (pySlice s1.blockSize (s1.blockSize * 2)
            (irfft (convolveSpectra (s1.blockSize + 1)
              s1.TF_left_blocked
              (ConvolverFFTW.processAfterFill irfft s1).FDL_left)))
          s1.crossFadeOut) ∧
    (ConvolverFFTW.processAfterFill irfft s1).outputRight =
      List.zipWith (fun a b => a + b)
        (List.zipWith (fun a b => a * b)
          (pySlice s1.blockSize (s1.blockSize * 2)
            (irfft (convolveSpectra (s1.blockSize + 1)
              (ConvolverFFTW.processAfterFill irfft s1).TF_right_blocked
              (ConvolverFFTW.processAfterFill irfft s1).FDL_right)))
          s1.crossFadeIn)
        (List.zipWith (fun a b => a * b)
          (pySlice s1.blockSize (s1.blockSize * 2)
            (irfft (convolveSpectra (s1.blockSize + 1)
              s1.TF_right_blocked
              (ConvolverFFTW.processAfterFill irfft s1).FDL_right)))
          s1.crossFadeOut) := by
  rw [processAfterFill_TF_left_blocked, processAfterFill_TF_right_blocked,
      processAfterFill_FDL_left, processAfterFill_FDL_right]
  simp only [ConvolverFFTW.processAfterFill]
  have hi : (ConvolverFFTW.buildFilters
      (ConvolverFFTW.saveOldFilters s1)).interpolate = true := by
    simp [ConvolverFFTW.saveOldFilters, h]
  simp only [hi]
  simp [ConvolverFFTW.saveOldFilters]

end ConvolverLemmas

section FillLemmas

variable {TD FD : Type} [Zero TD]

theorem fm_TF_left (rfft : List TD → List FD) (s : ConvState TD FD)
    (block : List TD) :
    (ConvolverFFTW.fill_buffer_mono rfft s block).TF_left_blocked =
      s.TF_left_blocked := by
  dsimp only [ConvolverFFTW.fill_buffer_mono]
  split <;> rfl

theorem fm_TF_right (rfft : List TD → List FD) (s : ConvState TD FD)
    (block : List TD) :
    (ConvolverFFTW.fill_buffer_mono rfft s block).TF_right_blocked =
      s.TF_right_blocked := by
  dsimp only [ConvolverFFTW.fill_buffer_mono]
  split <;> rfl

theorem fm_interpolate (rfft : List TD → List FD) (s : ConvState TD FD)
    (block : List TD) :
    (ConvolverFFTW.fill_buffer_mono rfft s block).interpolate =
      s.interpolate := by
  dsimp only [ConvolverFFTW.fill_buffer_mono]
  split <;> rfl

theorem fm_blockSize (rfft : List TD → List FD) (s : ConvState TD FD)
    (block : List TD) :
    (ConvolverFFTW.fill_buffer_mono rfft s block).blockSize =
      s.blockSize := by
  dsimp only [ConvolverFFTW.fill_buffer_mono]
  split <;> rfl

theorem fm_crossFadeIn (rfft : List TD → List FD) (s : ConvState TD FD)
    (block : List TD) :
    (ConvolverFFTW.fill_buffer_mono rfft s block).crossFadeIn =
      s.crossFadeIn := by
  dsimp only [ConvolverFFTW.fill_buffer_mono]
  split <;> rfl

theorem fm_crossFadeOut (rfft : List TD → List FD) (s : ConvState TD FD)
    (block : List TD) :
    (ConvolverFFTW.fill_buffer_mono rfft s block).crossFadeOut =
      s.crossFadeOut := by
  dsimp only [ConvolverFFTW.fill_buffer_mono]
  split <;> rfl

theorem fm_FDL_left_head (rfft : List TD → List FD) (s : ConvState TD FD)
    (block : List TD) :
    (ConvolverFFTW.fill_buffer_mono rfft s block).FDL_left.head? =
      some (rfft (ConvolverFFTW.fill_buffer_mono rfft s block).buffer) := by
  dsimp only [ConvolverFFTW.fill_buffer_mono]
  split <;> rfl

theorem fm_FDL_right_head (rfft : List TD → List FD) (s : ConvState TD FD)
    (block : List TD) :
    (ConvolverFFTW.fill_buffer_mono rfft s block).FDL_right.head? =
      some (rfft (ConvolverFFTW.fill_buffer_mono rfft s block).buffer) := by
  dsimp only [ConvolverFFTW.fill_buffer_mono]
  split <;> rfl

theorem fs_TF_left (rfft : List TD → List FD) (s : ConvState TD FD)
    (block : List (TD × TD)) :
    (ConvolverFFTW.fill_buffer_stereo rfft s block).TF_left_blocked =
      s.TF_left_blocked := by
  dsimp only [ConvolverFFTW.fill_buffer_stereo]
  split <;> rfl

theorem fs_TF_right (rfft : List TD → List FD) (s : ConvState TD FD)
    (block : List (TD × TD)) :
    (ConvolverFFTW.fill_buffer_stereo rfft s block).TF_right_blocked =
      s.TF_right_blocked := by
  dsimp only [ConvolverFFTW.fill_buffer_stereo]
  split <;> rfl

theorem fs_interpolate (rfft : List TD → List FD) (s : ConvState TD FD)
    (block : List (TD × TD)) :
    (ConvolverFFTW.fill_buffer_stereo rfft s block).interpolate =
      s.interpolate := by
  dsimp only [ConvolverFFTW.fill_buffer_stereo]
  split <;> rfl

theorem fs_blockSize (rfft : List TD → List FD) (s : ConvState TD FD)
    (block : List (TD × TD)) :
    (ConvolverFFTW.fill_buffer_stereo rfft s block).blockSize =
      s.blockSize := by
  dsimp only [ConvolverFFTW.fill_buffer_stereo]
  split <;> rfl

theorem fs_crossFadeIn (rfft : List TD → List FD) (s : ConvState TD FD)
    (block : List (TD × TD)) :
    (ConvolverFFTW.fill_buffer_stereo rfft s block).crossFadeIn =
      s.crossFadeIn := by
  dsimp only [ConvolverFFTW.fill_buffer_stereo]
  split <;> rfl

theorem fs_crossFadeOut (rfft : List TD → List FD) (s : ConvState TD FD)
    (block : List (TD × TD)) :
    (ConvolverFFTW.fill_buffer_stereo rfft s block).crossFadeOut =
      s.crossFadeOut := by
  dsimp only [ConvolverFFTW.fill_buffer_stereo]
  split <;> rfl

theorem fs_FDL_left_head (rfft : List TD → List FD) (s : ConvState TD FD)
    (block : List (TD × TD)) :
    (ConvolverFFTW.fill_buffer_stereo rfft s block).FDL_left.head? =
      some (rfft
        (ConvolverFFTW.fill_buffer_stereo rfft s block).buffer) := by
  dsimp only [ConvolverFFTW.fill_buffer_stereo]
  split <;> rfl

theorem fs_FDL_right_head (rfft : List TD → List FD) (s : ConvState TD FD)
    (block : List (TD × TD)) :
    (ConvolverFFTW.fill_buffer_stereo rfft s block).FDL_right.head? =
      some (rfft
        (ConvolverFFTW.fill_buffer_stereo rfft s block).buffer2) := by
  dsimp only [ConvolverFFTW.fill_buffer_stereo]
  split <;> rfl

end FillLemmas

theorem zipWith_get?_some {γ δ ε : Type} (f : γ → δ → ε) :
    ∀ (xs : List γ) (ys : List δ) (n : ℕ) (x : γ) (y : δ),
      xs.get? n = some x → ys.get? n = some y →
      (List.zipWith f xs ys).get? n = some (f x y) := by
  intro xs
  induction xs with
  | nil => intro ys n x y hx hy; simp at hx
  | cons a xs ih =>
    intro ys n x y hx hy
    cases ys with
    | nil => simp at hy
    | cons b ys =>
      cases n with
      | zero =>
        simp only [List.get?] at hx hy
        cases hx; cases hy
        rfl
      | succ m =>
        simp only [List.get?] at hx hy
        simpa using ih ys m x y hx hy

/- ------------------------------------------------------------------
   Claim C3: the crossfade branch of process
   ------------------------------------------------------------------ -/

theorem claim_C3_core {TD FD : Type} [CommRing TD] [CommRing FD]
    (irfft : List FD → List TD) (s s1 : ConvState TD FD)
    (h1 : s1.interpolate = s.interpolate)
    (h2 : s1.blockSize = s.blockSize)
    (h3 : s1.crossFadeIn = s.crossFadeIn)
    (h4 : s1.crossFadeOut = s.crossFadeOut)
    (h5 : s1.TF_left_blocked = s.TF_left_blocked)
    (h6 : s1.TF_right_blocked = s.TF_right_blocked) :
    (ConvolverFFTW.processAfterFill irfft s1).interpolate = false ∧
    (ConvolverFFTW.processAfterFill irfft s1).TF_left_blocked_previous =
      s.TF_left_blocked ∧
    (ConvolverFFTW.processAfterFill irfft s1).TF_right_blocked_previous =
      s.TF_right_blocked ∧
    (s.interpolate = true →
      (ConvolverFFTW.processAfterFill irfft s1).outputLeft =
        List.zipWith (fun a b => a + b)
          (List.zipWith (fun a b => a * b)
            (pySlice s.blockSize (s.blockSize * 2)
              (irfft (convolveSpectra (s.blockSize + 1)
                (ConvolverFFTW.processAfterFill irfft s1).TF_left_blocked
                (ConvolverFFTW.processAfterFill irfft s1).FDL_left)))
            s.crossFadeIn)
          (List.zipWith (fun a b => a * b)
            (pySlice s.blockSize (s.blockSize * 2)
              (irfft (convolveSpectra (s.blockSize + 1)
                (ConvolverFFTW.processAfterFill irfft
                  s1).TF_left_blocked_previous
                (ConvolverFFTW.processAfterFill irfft s1).FDL_left)))
            s.crossFadeOut) ∧
      (ConvolverFFTW.processAfterFill irfft s1).outputRight =
        List.zipWith (fun a b => a + b)
          (List.zipWith (fun a b => a * b)
            (pySlice s.blockSize (s.blockSize * 2)
              (irfft (convolveSpectra (s.blockSize + 1)
                (ConvolverFFTW.processAfterFill irfft s1).TF_right_blocked
                (ConvolverFFTW.processAfterFill irfft s1).FDL_right)))
            s.crossFadeIn)
          (List.zipWith (fun a b => a * b)
            (pySlice s.blockSize (s.blockSize * 2)
              (irfft (convolveSpectra (s.blockSize + 1)
                (ConvolverFFTW.processAfterFill irfft
                  s1).TF_right_blocked_previous
                (ConvolverFFTW.processAfterFill irfft s1).FDL_right)))
            s.crossFadeOut)) ∧
    (s.interpolate = false →
      (ConvolverFFTW.processAfterFill irfft s1).outputLeft =
        pySlice s.blockSize (s.blockSize * 2)
          (irfft (convolveSpectra (s.blockSize + 1)
            (ConvolverFFTW.processAfterFill irfft s1).TF_left_blocked
            (ConvolverFFTW.processAfterFill irfft s1).FDL_left)) ∧
      (ConvolverFFTW.processAfterFill irfft s1).outputRight =
        pySlice s.blockSize (s.blockSize * 2)
          (irfft (convolveSpectra (s.blockSize + 1)
            (ConvolverFFTW.processAfterFill irfft s1).TF_right_blocked
            (ConvolverFFTW.processAfterFill irfft s1).FDL_right))) ∧
    (s.interpolate = true →
      ∀ (n : ℕ) (wIn wOut xnew xold : TD),
        s.crossFadeIn.get? n = some wIn →
        s.crossFadeOut.get? n = some wOut →
        (pySlice s.blockSize (s.blockSize * 2)
          (irfft (convolveSpectra (s.blockSize + 1)
            (ConvolverFFTW.processAfterFill irfft s1).TF_left_blocked
            (ConvolverFFTW.processAfterFill irfft s1).FDL_left))).get? n =
          some xnew →
        (pySlice s.blockSize (s.blockSize * 2)
          (irfft (convolveSpectra (s.blockSize + 1)
            (ConvolverFFTW.processAfterFill irfft
              s1).TF_left_blocked_previous
            (ConvolverFFTW.processAfterFill irfft s1).FDL_left))).get? n =
          some xold →
        (ConvolverFFTW.processAfterFill irfft s1).outputLeft.get? n =
          some (wIn * xnew + wOut * xold)) := by
  have hprevL := processAfterFill_TF_left_blocked_previous irfft s1
  have hprevR := processAfterFill_TF_right_blocked_previous irfft s1
  refine ⟨processAfterFill_interpolate irfft s1, ?_, ?_, ?_, ?_, ?_⟩
  · rw [hprevL, h5]
  · rw [hprevR, h6]
  · intro hi
    have hx := processAfterFill_output_xfade irfft s1 (h1.trans hi)
    rw [h2, h3, h4, h5, h6] at hx
    rw [hprevL, hprevR, h5, h6]
    exact hx
  · intro hi
    have hp := processAfterFill_output_plain irfft s1 (h1.trans hi)
    rw [h2] at hp
    exact hp
  · intro hi n wIn wOut xnew xold hwIn hwOut hxnew hxold
    have hx := processAfterFill_output_xfade irfft s1 (h1.trans hi)
    rw [h2, h3, h4, h5, h6] at hx
    rw [hprevL, h5] at hxold
    rw [hx.1]
    have hnew := zipWith_get?_some (fun a b => a * b) _ s.crossFadeIn n
      xnew wIn hxnew hwIn
    have hold := zipWith_get?_some (fun a b => a * b) _ s.crossFadeOut n
      xold wOut hxold hwOut
    have hsum := zipWith_get?_some (fun a b => a + b) _ _ n
      (xnew * wIn) (xold * wOut) hnew hold
    rw [hsum]
    simp only [Option.some.injEq]
    change xnew * wIn + xold * wOut = wIn * xnew + wOut * xold
    ring

/-- C3: in every process call, the crossfade flag is cleared; the previous
filter snapshotted in the call is the filter installed at entry; iff the
flag was pending, a second output pair is computed from the snapshotted
previous filter over the same delay lines and each final output sample n is
w_in[n] times the new-filter result plus w_out[n] times the old-filter
result; with the flag clear the output is the plain new-filter result. -/
theorem claim_C3_crossfade_iff {TD FD : Type} [CommRing TD] [CommRing FD]
    (rfft : List TD → List FD) (irfft : List FD → List TD)
    (s : ConvState TD FD) (b : AudioBlock TD) (s' : ConvState TD FD)
    (hs' : s' = ConvolverFFTW.process rfft irfft s b) :
    s'.interpolate = false ∧
    s'.TF_left_blocked_previous = s.TF_left_blocked ∧
    s'.TF_right_blocked_previous = s.TF_right_blocked ∧
    (s.interpolate = true →
      s'.outputLeft =
        List.zipWith (fun a b => a + b)
          (List.zipWith (fun a b => a * b)
            (pySlice s.blockSize (s.blockSize * 2)
              (irfft (convolveSpectra (s.blockSize + 1)
                s'.TF_left_blocked s'.FDL_left)))
            s.crossFadeIn)
          (List.zipWith (fun a b => a * b)
            (pySlice s.blockSize (s.blockSize * 2)
              (irfft (convolveSpectra (s.blockSize + 1)
                s'.TF_left_blocked_previous s'.FDL_left)))
            s.crossFadeOut) ∧
      s'.outputRight =
        List.zipWith (fun a b => a + b)
          (List.zipWith (fun a b => a * b)
            (pySlice s.blockSize (s.blockSize * 2)
              (irfft (convolveSpectra (s.blockSize + 1)
                s'.TF_right_blocked s'.FDL_right)))
            s.crossFadeIn)
          (List.zipWith (fun a b => a * b)
            (pySlice s.blockSize (s.blockSize * 2)
              (irfft (convolveSpectra (s.blockSize + 1)
                s'.TF_right_blocked_previous s'.FDL_right)))
            s.crossFadeOut)) ∧
    (s.interpolate = false →
      s'.outputLeft =
        pySlice s.blockSize (s.blockSize * 2)
          (irfft (convolveSpectra (s.blockSize + 1)
            s'.TF_left_blocked s'.FDL_left)) ∧
      s'.outputRight =
        pySlice s.blockSize (s.blockSize * 2)
          (irfft (convolveSpectra (s.blockSize + 1)
            s'.TF_right_blocked s'.FDL_right))) ∧
    (s.interpolate = true →
      ∀ (n : ℕ) (wIn wOut xnew xold : TD),
        s.crossFadeIn.get? n = some wIn →
        s.crossFadeOut.get? n = some wOut →
        (pySlice s.blockSize (s.blockSize * 2)
          (irfft (convolveSpectra (s.blockSize + 1)
            s'.TF_left_blocked s'.FDL_left))).get? n = some xnew →
        (pySlice s.blockSize (s.blockSize * 2)
          (irfft (convolveSpectra (s.blockSize + 1)
            s'.TF_left_blocked_previous s'.FDL_left))).get? n =
          some xold →
        s'.outputLeft.get? n = some (wIn * xnew + wOut * xold)) := by
  subst hs'
  simp only [ConvolverFFTW.process]
  by_cases hps : s.processStereo = true
  · rw [if_pos hps]
    exact claim_C3_core irfft s
      (ConvolverFFTW.fill_buffer_stereo rfft s b.stereoData)
      (fs_interpolate rfft s b.stereoData)
      (fs_blockSize rfft s b.stereoData)
      (fs_crossFadeIn rfft s b.stereoData)
      (fs_crossFadeOut rfft s b.stereoData)
      (fs_TF_left rfft s b.stereoData)
      (fs_TF_right rfft s b.stereoData)
  · rw [if_neg hps]
    exact claim_C3_core irfft s
      (ConvolverFFTW.fill_buffer_mono rfft s b.monoData)
      (fm_interpolate rfft s b.monoData)
      (fm_blockSize rfft s b.monoData)
      (fm_crossFadeIn rfft s b.monoData)
      (fm_crossFadeOut rfft s b.monoData)
      (fm_TF_left rfft s b.monoData)
      (fm_TF_right rfft s b.monoData)

/-- Witness for C3 on the concrete crossfading convolver. -/
theorem claim_C3_witness :
    (ConvolverFFTW.process exRfft exIrfft exConvXfade (AudioBlock.mono [1, 2])).interpolate = false ∧
    (ConvolverFFTW.process exRfft exIrfft exConvXfade (AudioBlock.mono [1, 2])).TF_left_blocked_previous = exConvXfade.TF_left_blocked ∧
    (ConvolverFFTW.process exRfft exIrfft exConvXfade (AudioBlock.mono [1, 2])).TF_right_blocked_previous = exConvXfade.TF_right_blocked ∧
    (exConvXfade.interpolate = true →
      (ConvolverFFTW.process exRfft exIrfft exConvXfade (AudioBlock.mono [1, 2])).outputLeft =
        List.zipWith (fun a b => a + b)
          (List.zipWith (fun a b => a * b)
            (pySlice exConvXfade.blockSize (exConvXfade.blockSize * 2)
              (exIrfft (convolveSpectra (exConvXfade.blockSize + 1)
                (ConvolverFFTW.process exRfft exIrfft exConvXfade (AudioBlock.mono [1, 2])).TF_left_blocked (ConvolverFFTW.process exRfft exIrfft exConvXfade (AudioBlock.mono [1, 2])).FDL_left)))
            exConvXfade.crossFadeIn)
          (List.zipWith (fun a b => a * b)
            (pySlice exConvXfade.blockSize (exConvXfade.blockSize * 2)
              (exIrfft (convolveSpectra (exConvXfade.blockSize + 1)
                (ConvolverFFTW.process exRfft exIrfft exConvXfade (AudioBlock.mono [1, 2])).TF_left_blocked_previous (ConvolverFFTW.process exRfft exIrfft exConvXfade (AudioBlock.mono [1, 2])).FDL_left)))
            exConvXfade.crossFadeOut) ∧
      (ConvolverFFTW.process exRfft exIrfft exConvXfade (AudioBlock.mono [1, 2])).outputRight =
        List.zipWith (fun a b => a + b)
          (List.zipWith (fun a b => a * b)
            (pySlice exConvXfade.blockSize (exConvXfade.blockSize * 2)
              (exIrfft (convolveSpectra (exConvXfade.blockSize + 1)
                (ConvolverFFTW.process exRfft exIrfft exConvXfade (AudioBlock.mono [1, 2])).TF_right_blocked (ConvolverFFTW.process exRfft exIrfft exConvXfade (AudioBlock.mono [1, 2])).FDL_right)))
            exConvXfade.crossFadeIn)
          (List.zipWith (fun a b => a * b)
            (pySlice exConvXfade.blockSize (exConvXfade.blockSize * 2)
              (exIrfft (convolveSpectra (exConvXfade.blockSize + 1)
                (ConvolverFFTW.process exRfft exIrfft exConvXfade (AudioBlock.mono [1, 2])).TF_right_blocked_previous (ConvolverFFTW.process exRfft exIrfft exConvXfade (AudioBlock.mono [1, 2])).FDL_right)))
            exConvXfade.crossFadeOut)) ∧
    (exConvXfade.interpolate = false →
      (ConvolverFFTW.process exRfft exIrfft exConvXfade (AudioBlock.mono [1, 2])).outputLeft =
        pySlice exConvXfade.blockSize (exConvXfade.blockSize * 2)
          (exIrfft (convolveSpectra (exConvXfade.blockSize + 1)
            (ConvolverFFTW.process exRfft exIrfft exConvXfade (AudioBlock.mono [1, 2])).TF_left_blocked (ConvolverFFTW.process exRfft exIrfft exConvXfade (AudioBlock.mono [1, 2])).FDL_left)) ∧
      (ConvolverFFTW.process exRfft exIrfft exConvXfade (AudioBlock.mono [1, 2])).outputRight =
        pySlice exConvXfade.blockSize (exConvXfade.blockSize * 2)
          (exIrfft (convolveSpectra (exConvXfade.blockSize + 1)
            (ConvolverFFTW.process exRfft exIrfft exConvXfade (AudioBlock.mono [1, 2])).TF_right_blocked (ConvolverFFTW.process exRfft exIrfft exConvXfade (AudioBlock.mono [1, 2])).FDL_right))) ∧
    (exConvXfade.interpolate = true →
      ∀ (n : ℕ) (wIn wOut xnew xold : ℤ),
        exConvXfade.crossFadeIn.get? n = some wIn →
        exConvXfade.crossFadeOut.get? n = some wOut →
        (pySlice exConvXfade.blockSize (exConvXfade.blockSize * 2)
          (exIrfft (convolveSpectra (exConvXfade.blockSize + 1)
            (ConvolverFFTW.process exRfft exIrfft exConvXfade (AudioBlock.mono [1, 2])).TF_left_blocked (ConvolverFFTW.process exRfft exIrfft exConvXfade (AudioBlock.mono [1, 2])).FDL_left))).get? n = some xnew →
        (pySlice exConvXfade.blockSize (exConvXfade.blockSize * 2)
          (exIrfft (convolveSpectra (exConvXfade.blockSize + 1)
            (ConvolverFFTW.process exRfft exIrfft exConvXfade (AudioBlock.mono [1, 2])).TF_left_blocked_previous (ConvolverFFTW.process exRfft exIrfft exConvXfade (AudioBlock.mono [1, 2])).FDL_left))).get? n =
          some xold →
        (ConvolverFFTW.process exRfft exIrfft exConvXfade (AudioBlock.mono [1, 2])).outputLeft.get? n = some (wIn * xnew + wOut * xold)) :=
  claim_C3_crossfade_iff exRfft exIrfft exConvXfade (AudioBlock.mono [1, 2])
    (ConvolverFFTW.process exRfft exIrfft exConvXfade (AudioBlock.mono [1, 2]))
    rfl

/- ------------------------------------------------------------------
   Entry-level description of the spectral accumulation
   ------------------------------------------------------------------ -/

theorem foldl_zipWith_add_get? {FD : Type} [AddCommMonoid FD] :
    ∀ (rows : List (List FD)) (acc : List FD) (j : ℕ), j < acc.length →
      (∀ r ∈ rows, acc.length ≤ r.length) →
      (rows.foldl (fun a r => List.zipWith (fun x y => x + y) a r)
          acc).get? j =
        some ((acc.get? j).getD 0 +
          ∑ i ∈ Finset.range rows.length, ent rows i j) := by
  intro rows
  induction rows with
  | nil =>
    intro acc j hj _
    rw [List.get?_eq_get hj]
    simp
  | cons r rest ih =>
    intro acc j hj hlen
    have hr : acc.length ≤ r.length := hlen r (by simp)
    have hzlen : (List.zipWith (fun x y => x + y) acc r).length =
        acc.length := by
      rw [List.length_zipWith]
      omega
    have hjz : j < (List.zipWith (fun x y => x + y) acc r).length := by
      omega
    have hrest : ∀ q ∈ rest,
        (List.zipWith (fun x y => x + y) acc r).length ≤ q.length := by
      intro q hq
      rw [hzlen]
      exact hlen q (by simp [hq])
    have step := ih (List.zipWith (fun x y => x + y) acc r) j hjz hrest
    have ha : acc.get? j = some (acc.get ⟨j, hj⟩) := List.get?_eq_get hj
    have hjr : j < r.length := lt_of_lt_of_le hj hr
    have hb : r.get? j = some (r.get ⟨j, hjr⟩) := List.get?_eq_get hjr
    have hz : (List.zipWith (fun x y => x + y) acc r).get? j =
        some (acc.get ⟨j, hj⟩ + r.get ⟨j, hjr⟩) :=
      zipWith_get?_some (fun x y => x + y) acc r j _ _ ha hb
    simp only [List.foldl_cons]
    rw [step, hz]
    have hb2 : r[j]? = some (r.get ⟨j, hjr⟩) := by
      rw [← List.get?_eq_getElem?]
      exact hb
    have hent0 : ent (r :: rest) 0 j = r.get ⟨j, hjr⟩ := by
      simp [ent, hb2]
    have hentS : ∀ i, ent (r :: rest) (i + 1) j = ent rest i j := by
      intro i
      simp [ent]
    rw [List.length_cons, Finset.sum_range_succ']
    simp only [hentS, hent0, ha]
    simp only [Option.getD_some]
    congr 1
    abel

theorem sumRows_get? {FD : Type} [AddCommMonoid FD] (width : ℕ)
    (rows : List (List FD)) (j : ℕ) (hj : j < width)
    (hrows : ∀ r ∈ rows, r.length = width) :
    (sumRows width rows).get? j =
      some (∑ i ∈ Finset.range rows.length, ent rows i j) := by
  unfold sumRows
  have hstep := foldl_zipWith_add_get? rows (List.replicate width 0) j
    (by simpa using hj) (by intro r hr; rw [hrows r hr]; simp)
  rw [hstep]
  have : ((List.replicate width 0 : List FD).get? j).getD 0 = 0 := by
    rw [List.get?_eq_get (by simpa using hj)]
    simp
  rw [this, zero_add]

theorem mem_zipWith_struct {γ : Type} (f : List γ → List γ → List γ) :
    ∀ (A B : List (List γ)) (r : List γ), r ∈ List.zipWith f A B →
      ∃ a b, a ∈ A ∧ b ∈ B ∧ r = f a b := by
  intro A
  induction A with
  | nil => intro B r h; simp at h
  | cons a A ih =>
    intro B r h
    cases B with
    | nil => simp at h
    | cons b B =>
      simp only [List.zipWith_cons_cons, List.mem_cons] at h
      rcases h with h | h
      · exact ⟨a, b, by simp, by simp, h⟩
      · obtain ⟨x, y, hx, hy, hr⟩ := ih B r h
        exact ⟨x, y, by simp [hx], by simp [hy], hr⟩

theorem ent_rowsHadamard {FD : Type} [Zero FD] [Mul FD]
    (A B : List (List FD)) (width i j : ℕ)
    (hA : ∀ r ∈ A, r.length = width) (hB : ∀ r ∈ B, r.length = width)
    (hiA : i < A.length) (hiB : i < B.length) (hj : j < width) :
    ent (rowsHadamard A B) i j = ent A i j * ent B i j := by
  have hja : j < A[i].length := by
    rw [hA A[i] (List.getElem_mem hiA)]
    exact hj
  have hjb : j < B[i].length := by
    rw [hB B[i] (List.getElem_mem hiB)]
    exact hj
  have h1 : A[i]? = some A[i] :=
    (List.getElem?_eq_some_getElem_iff A i hiA).mpr trivial
  have h2 : B[i]? = some B[i] :=
    (List.getElem?_eq_some_getElem_iff B i hiB).mpr trivial
  have h3 : A[i][j]? = some A[i][j] :=
    (List.getElem?_eq_some_getElem_iff A[i] j hja).mpr trivial
  have h4 : B[i][j]? = some B[i][j] :=
    (List.getElem?_eq_some_getElem_iff B[i] j hjb).mpr trivial
  have h5 : (rowsHadamard A B)[i]? = some (hadamard A[i] B[i]) := by
    rw [← List.get?_eq_getElem?]
    refine zipWith_get?_some hadamard A B i _ _ ?_ ?_
    · rw [List.get?_eq_getElem?]
      exact h1
    · rw [List.get?_eq_getElem?]
      exact h2
  have h6 : (hadamard A[i] B[i])[j]? = some (A[i][j] * B[i][j]) := by
    rw [← List.get?_eq_getElem?]
    refine zipWith_get?_some (fun x y => x * y) _ _ j _ _ ?_ ?_
    · rw [List.get?_eq_getElem?]
      exact h3
    · rw [List.get?_eq_getElem?]
      exact h4
  simp only [ent, List.get?_eq_getElem?, h5, h1, h2, Option.getD_some, h6, h3, h4]

theorem convolveSpectra_get? {FD : Type} [CommRing FD] (width T : ℕ)
    (TF FDL : List (List FD)) (hTF : wellShaped T width TF)
    (hFDL : wellShaped T width FDL) (j : ℕ) (hj : j < width) :
    (convolveSpectra width TF FDL).get? j =
      some (∑ i ∈ Finset.range T, ent TF i j * ent FDL i j) := by
  obtain ⟨hTFl, hTFr⟩ := hTF
  obtain ⟨hFDLl, hFDLr⟩ := hFDL
  unfold convolveSpectra
  have hlen : (rowsHadamard TF FDL).length = T := by
    unfold rowsHadamard
    rw [List.length_zipWith, hTFl, hFDLl]
    omega
  have hrows : ∀ r ∈ rowsHadamard TF FDL, r.length = width := by
    intro r hr
    obtain ⟨a, b, haa, hbb, hrr⟩ := mem_zipWith_struct hadamard TF FDL r hr
    have : (hadamard a b).length = width := by
      unfold hadamard
      rw [List.length_zipWith, hTFr a haa, hFDLr b hbb]
      omega
    rw [hrr]
    exact this
  rw [sumRows_get? width (rowsHadamard TF FDL) j hj hrows, hlen]
  congr 1
  apply Finset.sum_congr rfl
  intro i hi
  have hiT : i < T := Finset.mem_range.mp hi
  exact ent_rowsHadamard TF FDL width i j hTFr hFDLr
    (by omega) (by omega) hj

theorem pySlice_eq_drop {γ : Type} (a b : ℕ) (l : List γ)
    (h : l.length ≤ b) : pySlice a b l = l.drop a := by
  unfold pySlice
  rw [List.take_all_of_le h]

/- ------------------------------------------------------------------
   Claim C1: the overlap-save output of process
   ------------------------------------------------------------------ -/

theorem claim_C1_core {TD FD : Type} [CommRing TD] [CommRing FD]
    (irfft : List FD → List TD) (s s1 : ConvState TD FD) (T : ℕ)
    (h1 : s1.interpolate = s.interpolate)
    (h2 : s1.blockSize = s.blockSize)
    (hint : s.interpolate = false)
    (hTFL : wellShaped T (s.blockSize + 1)
      (ConvolverFFTW.processAfterFill irfft s1).TF_left_blocked)
    (hTFR : wellShaped T (s.blockSize + 1)
      (ConvolverFFTW.processAfterFill irfft s1).TF_right_blocked)
    (hFDLL : wellShaped T (s.blockSize + 1)
      (ConvolverFFTW.processAfterFill irfft s1).FDL_left)
    (hFDLR : wellShaped T (s.blockSize + 1)
      (ConvolverFFTW.processAfterFill irfft s1).FDL_right) :
    (ConvolverFFTW.processAfterFill irfft s1).outputLeft =
      pySlice s.blockSize (s.blockSize * 2)
        (irfft (convolveSpectra (s.blockSize + 1)
          (ConvolverFFTW.processAfterFill irfft s1).TF_left_blocked
          (ConvolverFFTW.processAfterFill irfft s1).FDL_left)) ∧
    (ConvolverFFTW.processAfterFill irfft s1).outputRight =
      pySlice s.blockSize (s.blockSize * 2)
        (irfft (convolveSpectra (s.blockSize + 1)
          (ConvolverFFTW.processAfterFill irfft s1).TF_right_blocked
          (ConvolverFFTW.processAfterFill irfft s1).FDL_right)) ∧
    ((∀ ys, (irfft ys).length = 2 * s.blockSize) →
      (ConvolverFFTW.processAfterFill irfft s1).outputLeft =
        (irfft (convolveSpectra (s.blockSize + 1)
          (ConvolverFFTW.processAfterFill irfft s1).TF_left_blocked
          (ConvolverFFTW.processAfterFill irfft
            s1).FDL_left)).drop s.blockSize ∧
      (ConvolverFFTW.processAfterFill irfft s1).outputRight =
        (irfft (convolveSpectra (s.blockSize + 1)
          (ConvolverFFTW.processAfterFill irfft s1).TF_right_blocked
          (ConvolverFFTW.processAfterFill irfft
            s1).FDL_right)).drop s.blockSize) ∧
    (∀ j, j < s.blockSize + 1 →
      (convolveSpectra (s.blockSize + 1)
          (ConvolverFFTW.processAfterFill irfft s1).TF_left_blocked
          (ConvolverFFTW.processAfterFill irfft s1).FDL_left).get? j =
        some (∑ i ∈ Finset.range T,
          ent (ConvolverFFTW.processAfterFill irfft s1).TF_left_blocked
              i j *
            ent (ConvolverFFTW.processAfterFill irfft s1).FDL_left i j) ∧
      (convolveSpectra (s.blockSize + 1)
          (ConvolverFFTW.processAfterFill irfft s1).TF_right_blocked
          (ConvolverFFTW.processAfterFill irfft s1).FDL_right).get? j =
        some (∑ i ∈ Finset.range T,
          ent (ConvolverFFTW.processAfterFill irfft s1).TF_right_blocked
              i j *
            ent (ConvolverFFTW.processAfterFill irfft s1).FDL_right i j)) :=
  by
  have hp := processAfterFill_output_plain irfft s1 (h1.trans hint)
  rw [h2] at hp
  refine ⟨hp.1, hp.2, ?_, ?_⟩
  · intro hlen
    constructor
    · rw [hp.1]
      apply pySlice_eq_drop
      rw [hlen]
      omega
    · rw [hp.2]
      apply pySlice_eq_drop
      rw [hlen]
      omega
  · intro j hj
    exact ⟨convolveSpectra_get? (s.blockSize + 1) T _ _ hTFL hFDLL j hj,
           convolveSpectra_get? (s.blockSize + 1) T _ _ hTFR hFDLR j hj⟩

/-- C1 (amended): in a process call with no crossfade pending, after the new
input spectrum is stored at row 0 of the delay lines, each ear's output is
the second half (the last N samples) of the inverse transform of the sum
over the T partitions of filter row i times delay-line row i.  (When a
crossfade is pending the output is instead the crossfaded blend of the new
and snapshotted-previous filter results; see the C1 counterexample.) -/
theorem claim_C1_amended_overlap_save_output {TD FD : Type} [CommRing TD]
    [CommRing FD] (rfft : List TD → List FD) (irfft : List FD → List TD)
    (s : ConvState TD FD) (b : AudioBlock TD) (T : ℕ)
    (s' : ConvState TD FD)
    (hs' : s' = ConvolverFFTW.process rfft irfft s b)
    (hint : s.interpolate = false)
    (hTFL : wellShaped T (s.blockSize + 1) s'.TF_left_blocked)
    (hTFR : wellShaped T (s.blockSize + 1) s'.TF_right_blocked)
    (hFDLL : wellShaped T (s.blockSize + 1) s'.FDL_left)
    (hFDLR : wellShaped T (s.blockSize + 1) s'.FDL_right) :
    s'.FDL_left.head? = some (rfft s'.buffer) ∧
    s'.FDL_right.head? =
      some (rfft (if s.processStereo = true then s'.buffer2
        else s'.buffer)) ∧
    s'.outputLeft =
      pySlice s.blockSize (s.blockSize * 2)
        (irfft (convolveSpectra (s.blockSize + 1)
          s'.TF_left_blocked s'.FDL_left)) ∧
    s'.outputRight =
      pySlice s.blockSize (s.blockSize * 2)
        (irfft (convolveSpectra (s.blockSize + 1)
          s'.TF_right_blocked s'.FDL_right)) ∧
    ((∀ ys, (irfft ys).length = 2 * s.blockSize) →
      s'.outputLeft =
        (irfft (convolveSpectra (s.blockSize + 1)
          s'.TF_left_blocked s'.FDL_left)).drop s.blockSize ∧
      s'.outputRight =
        (irfft (convolveSpectra (s.blockSize + 1)
          s'.TF_right_blocked s'.FDL_right)).drop s.blockSize) ∧
    (∀ j, j < s.blockSize + 1 →
      (convolveSpectra (s.blockSize + 1) s'.TF_left_blocked
          s'.FDL_left).get? j =
        some (∑ i ∈ Finset.range T,
          ent s'.TF_left_blocked i j * ent s'.FDL_left i j) ∧
      (convolveSpectra (s.blockSize + 1) s'.TF_right_blocked
          s'.FDL_right).get? j =
        some (∑ i ∈ Finset.range T,
          ent s'.TF_right_blocked i j * ent s'.FDL_right i j)) := by
  subst hs'
  simp only [ConvolverFFTW.process] at hTFL hTFR hFDLL hFDLR ⊢
  by_cases hps : s.processStereo = true
  · rw [if_pos hps] at hTFL hTFR hFDLL hFDLR ⊢
    have hc := claim_C1_core irfft s
      (ConvolverFFTW.fill_buffer_stereo rfft s b.stereoData) T
      (fs_interpolate rfft s b.stereoData)
      (fs_blockSize rfft s b.stereoData) hint hTFL hTFR hFDLL hFDLR
    refine ⟨?_, ?_, hc.1, hc.2.1, hc.2.2.1, hc.2.2.2⟩
    · rw [processAfterFill_FDL_left, processAfterFill_buffer]
      exact fs_FDL_left_head rfft s b.stereoData
    · rw [if_pos hps, processAfterFill_FDL_right, processAfterFill_buffer2]
      exact fs_FDL_right_head rfft s b.stereoData
  · rw [if_neg hps] at hTFL hTFR hFDLL hFDLR ⊢
    have hc := claim_C1_core irfft s
      (ConvolverFFTW.fill_buffer_mono rfft s b.monoData) T
      (fm_interpolate rfft s b.monoData)
      (fm_blockSize rfft s b.monoData) hint hTFL hTFR hFDLL hFDLR
    refine ⟨?_, ?_, hc.1, hc.2.1, hc.2.2.1, hc.2.2.2⟩
    · rw [processAfterFill_FDL_left, processAfterFill_buffer]
      exact fm_FDL_left_head rfft s b.monoData
    · rw [if_neg hps, processAfterFill_FDL_right, processAfterFill_buffer]
      exact fm_FDL_right_head rfft s b.monoData

/-- C1 counterexample: on the split-filter convolver with a crossfade
pending, the output of process is not the second half of the inverse
transform of the accumulated new-filter products (the crossfade blends it
with the previous-filter result), refuting the claim for calls with the
crossfade flag pending. -/
theorem claim_C1_counterexample :
    (ConvolverFFTW.process exRfft exIrfft exConvSplit
        (AudioBlock.mono [0, 0])).outputLeft ≠
      pySlice 2 4 (exIrfft (convolveSpectra 3
        (ConvolverFFTW.process exRfft exIrfft exConvSplit
          (AudioBlock.mono [0, 0])).TF_left_blocked
        (ConvolverFFTW.process exRfft exIrfft exConvSplit
          (AudioBlock.mono [0, 0])).FDL_left)) := by
  decide

/-- Witness for the amended C1 on the concrete plain convolver. -/
theorem claim_C1_witness :
    (ConvolverFFTW.process exRfft exIrfft exConvPlain (AudioBlock.mono [9, 11])).FDL_left.head? = some (exRfft (ConvolverFFTW.process exRfft exIrfft exConvPlain (AudioBlock.mono [9, 11])).buffer) ∧
    (ConvolverFFTW.process exRfft exIrfft exConvPlain (AudioBlock.mono [9, 11])).FDL_right.head? =
      some (exRfft (if exConvPlain.processStereo = true then (ConvolverFFTW.process exRfft exIrfft exConvPlain (AudioBlock.mono [9, 11])).buffer2
        else (ConvolverFFTW.process exRfft exIrfft exConvPlain (AudioBlock.mono [9, 11])).buffer)) ∧
    (ConvolverFFTW.process exRfft exIrfft exConvPlain (AudioBlock.mono [9, 11])).outputLeft =
      pySlice exConvPlain.blockSize (exConvPlain.blockSize * 2)
        (exIrfft (convolveSpectra (exConvPlain.blockSize + 1)
          (ConvolverFFTW.process exRfft exIrfft exConvPlain (AudioBlock.mono [9, 11])).TF_left_blocked (ConvolverFFTW.process exRfft exIrfft exConvPlain (AudioBlock.mono [9, 11])).FDL_left)) ∧
    (ConvolverFFTW.process exRfft exIrfft exConvPlain (AudioBlock.mono [9, 11])).outputRight =
      pySlice exConvPlain.blockSize (exConvPlain.blockSize * 2)
        (exIrfft (convolveSpectra (exConvPlain.blockSize + 1)
          (ConvolverFFTW.process exRfft exIrfft exConvPlain (AudioBlock.mono [9, 11])).TF_right_blocked (ConvolverFFTW.process exRfft exIrfft exConvPlain (AudioBlock.mono [9, 11])).FDL_right)) ∧
    ((∀ ys, (exIrfft ys).length = 2 * exConvPlain.blockSize) →
      (ConvolverFFTW.process exRfft exIrfft exConvPlain (AudioBlock.mono [9, 11])).outputLeft =
        (exIrfft (convolveSpectra (exConvPlain.blockSize + 1)
          (ConvolverFFTW.process exRfft exIrfft exConvPlain (AudioBlock.mono [9, 11])).TF_left_blocked (ConvolverFFTW.process exRfft exIrfft exConvPlain (AudioBlock.mono [9, 11])).FDL_left)).drop exConvPlain.blockSize ∧
      (ConvolverFFTW.process exRfft exIrfft exConvPlain (AudioBlock.mono [9, 11])).outputRight =
        (exIrfft (convolveSpectra (exConvPlain.blockSize + 1)
          (ConvolverFFTW.process exRfft exIrfft exConvPlain (AudioBlock.mono [9, 11])).TF_right_blocked (ConvolverFFTW.process exRfft exIrfft exConvPlain (AudioBlock.mono [9, 11])).FDL_right)).drop exConvPlain.blockSize) ∧
    (∀ j, j < exConvPlain.blockSize + 1 →
      (convolveSpectra (exConvPlain.blockSize + 1) (ConvolverFFTW.process exRfft exIrfft exConvPlain (AudioBlock.mono [9, 11])).TF_left_blocked
          (ConvolverFFTW.process exRfft exIrfft exConvPlain (AudioBlock.mono [9, 11])).FDL_left).get? j =
        some (∑ i ∈ Finset.range 2,
          ent (ConvolverFFTW.process exRfft exIrfft exConvPlain (AudioBlock.mono [9, 11])).TF_left_blocked i j * ent (ConvolverFFTW.process exRfft exIrfft exConvPlain (AudioBlock.mono [9, 11])).FDL_left i j) ∧
      (convolveSpectra (exConvPlain.blockSize + 1) (ConvolverFFTW.process exRfft exIrfft exConvPlain (AudioBlock.mono [9, 11])).TF_right_blocked
          (ConvolverFFTW.process exRfft exIrfft exConvPlain (AudioBlock.mono [9, 11])).FDL_right).get? j =
        some (∑ i ∈ Finset.range 2,
          ent (ConvolverFFTW.process exRfft exIrfft exConvPlain (AudioBlock.mono [9, 11])).TF_right_blocked i j * ent (ConvolverFFTW.process exRfft exIrfft exConvPlain (AudioBlock.mono [9, 11])).FDL_right i j)) :=
  claim_C1_amended_overlap_save_output exRfft exIrfft exConvPlain
    (AudioBlock.mono [9, 11]) 2
    (ConvolverFFTW.process exRfft exIrfft exConvPlain (AudioBlock.mono [9, 11]))
    rfl rfl ⟨by decide, by decide⟩ ⟨by decide, by decide⟩
    ⟨by decide, by decide⟩ ⟨by decide, by decide⟩

/- ------------------------------------------------------------------
   Claim C2: nearest-neighbour directional filter lookup
   ------------------------------------------------------------------ -/

theorem get?_some_lt {γ : Type} (l : List γ) (n : ℕ) (a : γ)
    (h : l.get? n = some a) : n < l.length := by
  by_contra hc
  rw [List.get?_eq_none.mpr (by omega)] at h
  cases h

theorem nearestAux_spec (q : ℤ × ℤ) :
    ∀ (pts : List (ℤ × ℤ)) (i0 : ℕ) (best : ℕ × ℤ),
      (nearestAux q pts i0 best = best ∨
        ∃ j, j < pts.length ∧
          nearestAux q pts i0 best =
            (i0 + j, sqDist q ((pts.get? j).getD (0, 0)))) ∧
      (nearestAux q pts i0 best).2 ≤ best.2 ∧
      ∀ j, j < pts.length →
        (nearestAux q pts i0 best).2 ≤
          sqDist q ((pts.get? j).getD (0, 0)) := by
  intro pts
  induction pts with
  | nil =>
    intro i0 best
    exact ⟨Or.inl rfl, le_refl _, fun j hj => absurd hj (by simp)⟩
  | cons p rest ih =>
    intro i0 best
    have hstep : nearestAux q (p :: rest) i0 best =
        nearestAux q rest (i0 + 1)
          (if sqDist q p < best.2 then (i0, sqDist q p) else best) := rfl
    have ihs := ih (i0 + 1)
      (if sqDist q p < best.2 then (i0, sqDist q p) else best)
    have hb2 : (if sqDist q p < best.2 then (i0, sqDist q p)
        else best).2 ≤ best.2 := by
      split_ifs with hlt
      · exact le_of_lt hlt
      · exact le_refl _
    have hb2p : (if sqDist q p < best.2 then (i0, sqDist q p)
        else best).2 ≤ sqDist q p := by
      split_ifs with hlt
      · exact le_refl _
      · omega
    refine ⟨?_, ?_, ?_⟩
    · rcases ihs.1 with heq | ⟨j, hj, hjeq⟩
      · rw [hstep, heq]
        split_ifs with hlt
        · right
          exact ⟨0, by simp, by simp⟩
        · left
          rfl
      · right
        refine ⟨j + 1, by simpa using hj, ?_⟩
        rw [hstep, hjeq]
        have : i0 + 1 + j = i0 + (j + 1) := by omega
        rw [this]
        rfl
    · rw [hstep]
      exact le_trans ihs.2.1 hb2
    · intro j hj
      cases j with
      | zero =>
        rw [hstep]
        exact le_trans ihs.2.1 (by simpa using hb2p)
      | succ m =>
        rw [hstep]
        exact ihs.2.2 m (by simpa using hj)

theorem kdQuery_spec (q : ℤ × ℤ) (pts : List (ℤ × ℤ)) (hne : pts ≠ []) :
    kdQuery pts q < pts.length ∧
    ∀ j, j < pts.length →
      sqDist q ((pts.get? (kdQuery pts q)).getD (0, 0)) ≤
        sqDist q ((pts.get? j).getD (0, 0)) := by
  cases pts with
  | nil => exact absurd rfl hne
  | cons p rest =>
    have hs := nearestAux_spec q rest 1 (0, sqDist q p)
    have hq : kdQuery (p :: rest) q =
        (nearestAux q rest 1 (0, sqDist q p)).1 := rfl
    have hval : sqDist q
        (((p :: rest).get?
          (nearestAux q rest 1 (0, sqDist q p)).1).getD (0, 0)) =
        (nearestAux q rest 1 (0, sqDist q p)).2 := by
      rcases hs.1 with heq | ⟨j, hj, hjeq⟩
      · rw [heq]
        rfl
      · rw [hjeq]
        have h1 : (1 : ℕ) + j = j + 1 := by omega
        simp [h1]
    constructor
    · rw [hq]
      rcases hs.1 with heq | ⟨j, hj, hjeq⟩
      · rw [heq]
        simp
      · rw [hjeq]
        simp only [List.length_cons]
        omega
    · intro j hj
      rw [hq, hval]
      cases j with
      | zero =>
        have := hs.2.1
        simpa using this
      | succ m =>
        have := hs.2.2 m (by simpa using hj)
        simpa using this

theorem dict_foldl_none {φ : Type} (k : List ℤ) :
    ∀ (entries : List (Pose × φ)) (d0 : List ℤ → Option φ),
      (∀ e ∈ entries, e.1.create_key ≠ k) →
      (entries.foldl (fun d e => dictInsert d e.1.create_key e.2) d0) k =
        d0 k := by
  intro entries
  induction entries with
  | nil => intro d0 _; rfl
  | cons e rest ih =>
    intro d0 hk
    have h1 := ih (dictInsert d0 e.1.create_key e.2)
      (fun x hx => hk x (by simp [hx]))
    rw [List.foldl_cons, h1]
    unfold dictInsert
    rw [if_neg]
    intro hc
    exact hk e (by simp) hc.symm

theorem dict_foldl_lookup_at {φ : Type} :
    ∀ (entries : List (Pose × φ)) (d0 : List ℤ → Option φ) (i : ℕ)
      (e : Pose × φ), entries.get? i = some e →
      (∀ j e2, i < j → entries.get? j = some e2 →
        e2.1.create_key ≠ e.1.create_key) →
      (entries.foldl (fun d x => dictInsert d x.1.create_key x.2) d0)
        e.1.create_key = some e.2 := by
  intro entries
  induction entries with
  | nil => intro d0 i e he _; simp at he
  | cons f rest ih =>
    intro d0 i e he hafter
    cases i with
    | zero =>
      have hef : f = e := by simpa using he
      subst hef
      rw [List.foldl_cons]
      have hnone : ∀ e2 ∈ rest, e2.1.create_key ≠ f.1.create_key := by
        intro e2 he2
        obtain ⟨n, hn⟩ := List.mem_iff_get?.mp he2
        exact hafter (n + 1) e2 (by omega) (by simpa using hn)
      rw [dict_foldl_none f.1.create_key rest _ hnone]
      unfold dictInsert
      rw [if_pos rfl]
    | succ m =>
      rw [List.foldl_cons]
      exact ih (dictInsert d0 f.1.create_key f.2) m e (by simpa using he)
        (fun j e2 hj hje =>
          hafter (j + 1) e2 (by omega) (by simpa using hje))

/-- C2: with directional filters loaded at poses whose auxiliary fields are
zero and whose coordinates are pairwise distinct, get_filter returns the
loaded filter whose (azimuth, elevation) is nearest to the pose coordinate
in Euclidean distance (the KD-tree matched coordinate plus zero-filled
auxiliary fields rebuilds exactly that filter's key); in particular, with
filters at (0,0), (30,0), (60,0) a query at (20,0) returns the (30,0)
filter and a query at (14,0) returns the (0,0) filter. -/
theorem claim_C2_nearest_neighbour_lookup {φ : Type} (default_filter : φ)
    (entries : List (Pose × φ)) (pose : Pose) (hne : entries ≠ [])
    (haux : ∀ e ∈ entries,
      e.1.orientation = [e.1.coord.1, e.1.coord.2, 0, 0, 0, 0, 0, 0, 0])
    (hdist : entries.Pairwise (fun a b => a.1.coord ≠ b.1.coord)) :
    (∃ ek, entries.get?
        (kdQuery (FilterStorage.load_filters default_filter
          entries).filter_arr pose.coord) = some ek ∧
      FilterStorage.get_filter
          (FilterStorage.load_filters default_filter entries) pose =
        ek.2 ∧
      ∀ j ej, entries.get? j = some ej →
        sqDist pose.coord ek.1.coord ≤ sqDist pose.coord ej.1.coord) ∧
    FilterStorage.get_filter exStore (exPose 20 0) = 20 ∧
    FilterStorage.get_filter exStore (exPose 14 0) = 10 := by
  refine ⟨?_, by decide, by decide⟩
  rw [show (FilterStorage.load_filters default_filter entries).filter_arr =
    entries.map (fun e => e.1.coord) from rfl]
  have hmapne : entries.map (fun e => e.1.coord) ≠ [] := by simpa using hne
  obtain ⟨hklt, hkmin⟩ := kdQuery_spec pose.coord _ hmapne
  have hklen : kdQuery (entries.map (fun e => e.1.coord)) pose.coord <
      entries.length := by simpa using hklt
  obtain ⟨ek, hek⟩ : ∃ ek, entries.get?
      (kdQuery (entries.map (fun e => e.1.coord)) pose.coord) = some ek := by
    rw [List.get?_eq_get hklen]
    exact ⟨_, rfl⟩
  have hmem : ek ∈ entries := List.get?_mem hek
  refine ⟨ek, hek, ?_, ?_⟩
  · simp only [FilterStorage.get_filter]
    have hc : (((FilterStorage.load_filters default_filter
        entries).filter_arr).get?
          (kdQuery (FilterStorage.load_filters default_filter
            entries).filter_arr pose.coord)).getD (0, 0) = ek.1.coord := by
      rw [show (FilterStorage.load_filters default_filter
        entries).filter_arr = entries.map (fun e => e.1.coord) from rfl]
      rw [List.get?_map, hek]
      rfl
    rw [hc]
    have hkeyl : Pose.create_key (Pose.from_filterValueList
        ([ek.1.coord.1, ek.1.coord.2] ++ [0, 0, 0, 0, 0, 0, 0])) =
        ek.1.create_key := by
      unfold Pose.create_key Pose.from_filterValueList
      rw [haux ek hmem]
      rfl
    rw [hkeyl]
    have hafter : ∀ j e2,
        kdQuery (entries.map (fun e => e.1.coord)) pose.coord < j →
        entries.get? j = some e2 →
        e2.1.create_key ≠ ek.1.create_key := by
      intro j e2 hkj hj2 heq
      have hj2mem : e2 ∈ entries := List.get?_mem hj2
      have h1 : e2.1.orientation = ek.1.orientation := heq
      rw [haux e2 hj2mem, haux ek hmem] at h1
      simp only [List.cons.injEq] at h1
      have hco : ek.1.coord = e2.1.coord :=
        (Prod.ext h1.1 h1.2.1).symm
      have hjlen : j < entries.length := get?_some_lt entries j e2 hj2
      have hgk : entries.get ⟨kdQuery (entries.map (fun e => e.1.coord))
          pose.coord, hklen⟩ = ek := by
        have := List.get?_eq_get hklen
        rw [this] at hek
        exact Option.some.inj hek
      have hgj : entries.get ⟨j, hjlen⟩ = e2 := by
        have := List.get?_eq_get hjlen
        rw [this] at hj2
        exact Option.some.inj hj2
      have hpw := List.pairwise_iff_get.mp hdist
        ⟨kdQuery (entries.map (fun e => e.1.coord)) pose.coord, hklen⟩
        ⟨j, hjlen⟩ hkj
      rw [hgk, hgj] at hpw
      exact hpw hco
    have hdict := dict_foldl_lookup_at entries (fun _ => none)
      (kdQuery (entries.map (fun e => e.1.coord)) pose.coord) ek hek
      hafter
    rw [show (FilterStorage.load_filters default_filter
        entries).filter_dict ek.1.create_key = some ek.2 from hdict]
  · intro j ej hj
    have hjlen : j < entries.length := get?_some_lt entries j ej hj
    have hmin := hkmin j (by simpa using hjlen)
    have h1 : ((entries.map (fun e => e.1.coord)).get?
        (kdQuery (entries.map (fun e => e.1.coord))
          pose.coord)).getD (0, 0) = ek.1.coord := by
      rw [List.get?_map, hek]
      rfl
    have h2 : ((entries.map (fun e => e.1.coord)).get? j).getD (0, 0) =
        ej.1.coord := by
      rw [List.get?_map, hj]
      rfl
    rw [h1, h2] at hmin
    exact hmin

/-- Witness for C2 on the three-filter store queried at (20, 0). -/
theorem claim_C2_witness :
    (∃ ek, [(exPose 0 0, 10), (exPose 30 0, 20),
        (exPose 60 0, 30)].get?
          (kdQuery (FilterStorage.load_filters 999
            [(exPose 0 0, 10), (exPose 30 0, 20),
             (exPose 60 0, 30)]).filter_arr (exPose 20 0).coord) =
        some ek ∧
      FilterStorage.get_filter (FilterStorage.load_filters 999
          [(exPose 0 0, 10), (exPose 30 0, 20), (exPose 60 0, 30)])
          (exPose 20 0) = ek.2 ∧
      ∀ j ej, [(exPose 0 0, 10), (exPose 30 0, 20),
          (exPose 60 0, 30)].get? j = some ej →
        sqDist (exPose 20 0).coord ek.1.coord ≤
          sqDist (exPose 20 0).coord ej.1.coord) ∧
    FilterStorage.get_filter exStore (exPose 20 0) = 20 ∧
    FilterStorage.get_filter exStore (exPose 14 0) = 10 :=
  claim_C2_nearest_neighbour_lookup 999
    [(exPose 0 0, 10), (exPose 30 0, 20), (exPose 60 0, 30)]
    (exPose 20 0) (by decide) (by decide) (by decide)

end PyBinSim
